import Mathlib

/-
Verification development for the compiler-argument classification engine in
libcodechecker/log/option_parser.py.

The engine is embedded shallowly:
 * tokens are Lean String values (the tokenizer, shlex, is outside the engine;
   the engine receives the token list with the compiler name as first token);
 * every rule table of the source is a Lean list in source order;
 * every regular expression of the source is translated to an executable
   Boolean matcher on the token text, with the Python re semantics: re.match
   anchors at the start of the string, a dot never matches a newline, and a
   dollar anchor accepts the end of the string or the position just before
   one final newline;
 * the mutable OptionParserResult object becomes an explicitly threaded record;
 * the shared Python iterator becomes an explicit cursor: arg_check receives
   the current token and the remaining tokens and reports how many of the
   remaining tokens it consumed;
 * a StopIteration escaping from a handler (an option that claims more
   trailing tokens than remain) and a failing open() in the -filelist handler
   abort the call; both are modelled by the Except error monad;
 * the filesystem used by the -filelist handler is an explicit parameter
   mapping a path to the list of lines of the file, or none when the file
   cannot be opened.
-/

/- Basic string machinery.  All string matching is done on the underlying
character lists so that both concrete evaluation and symbolic reasoning are
available. -/

/-- Equality test on character lists. -/
def leq : List Char → List Char → Bool
  | [], [] => true
  | a :: as, b :: bs => if a = b then leq as bs else false
  | _, _ => false

/-- String equality through the underlying character lists. -/
def streq (s t : String) : Bool := leq s.data t.data

/-- Test whether the first list is a leading segment of the second
(pattern first, subject second). -/
def lcp : List Char → List Char → Bool
  | [], _ => true
  | _ :: _, [] => false
  | a :: as, b :: bs => if a = b then lcp as bs else false

/-- Anchored match of a literal pattern at the start of a token: the
translation of a regular expression of the shape caret-literal (with or
without a trailing dot-star). -/
def sw (s p : String) : Bool := lcp p.data s.data

/-- Association-list lookup keyed by token text; translation of a Python
dict membership test plus item access (all source dict keys are distinct, so
iteration order is irrelevant). -/
def lookupS {α : Type} (s : String) : List (String × α) → Option α
  | [] => none
  | (k, v) :: ps => if streq s k then some v else lookupS s ps

/-- Membership of a character in a character list. -/
def hasChar (c : Char) : List Char → Bool
  | [] => false
  | a :: as => if a = c then true else hasChar c as

/-- The Python dollar anchor after a fully matched body: the remainder of
the token must be empty or one final newline. -/
def dollar_end (s : List Char) : Bool := s.isEmpty || leq s ['\n']

/-- A remainder accepted by dot-star-dollar: newline-free text, possibly
closed by one final newline (a dot never matches a newline, and the dollar
accepts the end or the position before one final newline). -/
def dstar_ok : List Char → Bool
  | [] => true
  | c :: rest => if c = '\n' then rest.isEmpty else dstar_ok rest

/-- The group captured by a dot-star-dollar tail on a remainder: the
remainder itself when it is newline-free, the remainder without its final
newline when that is its only newline, and no match otherwise. -/
def dstar_group : List Char → Option (List Char)
  | [] => some []
  | c :: rest =>
    if c = '\n' then (if rest.isEmpty then some [] else none)
    else match dstar_group rest with
      | some g => some (c :: g)
      | none => none

/-- An end-anchored literal pattern: the token is the literal text, or the
literal text followed by one final newline. -/
def dollar_eq (t k : String) : Bool :=
  leq t.data k.data || leq t.data (k.data ++ ['\n'])

/-- A literal prefix pattern closed by dot-star-dollar. -/
def dollar_sw (t p : String) : Bool :=
  lcp p.data t.data && dstar_ok (t.data.drop p.data.length)

/-- Translation of the regular expression dot-star backslash-plus
backslash-plus dot-star used for the C++ compiler-name inference: two
consecutive plus characters must occur before any newline, because the
leading dot-star cannot cross a newline. -/
def has_pp : List Char → Bool
  | '+' :: '+' :: _ => true
  | '\n' :: _ => false
  | _ :: rest => has_pp rest
  | [] => false

/-- Python str.strip() whitespace characters. -/
def pySpace (c : Char) : Bool :=
  c = ' ' || c = '\t' || c = '\n' || c = '\r' || c = '\x0b' || c = '\x0c'

/-- Translation of Python str.strip() as applied to each line read by the
-filelist handler. -/
def pyStrip (s : String) : String :=
  ⟨((s.data.dropWhile pySpace).reverse.dropWhile pySpace).reverse⟩

/-- Replace every double-quote character by quote backslash quote;
translation of opt.replace applied in the post-pass of parse_options. -/
def repl_quote : List Char → List Char
  | [] => []
  | c :: cs => if c = '"' then '"' :: '\\' :: '"' :: repl_quote cs else c :: repl_quote cs

/-- The post-pass re-escaping of a compile option that contains an embedded
double quote (parse_options lines 539-545 of the source). -/
def requote (s : String) : String :=
  if hasChar '"' s.data then ⟨repl_quote s.data⟩ else s

/- The classification tables of the source, in source order. -/

/-- COMPILE_OPTION_MAP of the source: exact compile options with the number
of trailing parameters. -/
def COMPILE_OPTION_MAP : List (String × Nat) :=
  [("-nostdinc", 0), ("--sysroot", 1), ("--include", 1), ("-pedantic", 0), ("-G", 1)]

/-- COMPILE_OPTION_MAP_MERGED of the source: ordered prefix patterns whose
value may be adjacent or in the next token.  The Boolean records whether the
captured suffix must be nonempty (the -F pattern uses dot-plus, every other
pattern uses dot-star).  The character class D I U of the second source
pattern is expanded into three consecutive prefixes. -/
def COMPILE_OPTION_MAP_MERGED : List (String × Bool) :=
  [("-iquote", false), ("-D", false), ("-I", false), ("-U", false), ("-F", true),
   ("-idirafter", false), ("-isystem", false), ("-imacros", false), ("-include", false),
   ("-isysroot", false), ("-iprefix", false), ("-iwithprefix", false),
   ("-iwithprefixbefore", false)]

/-- COMPILE_OPTION_MAP_REGEX of the source, translated pattern by pattern;
every arity in that table is zero. -/
def compile_options_regex_match (t : String) : Bool :=
  dollar_eq t "-O" || dollar_eq t "-O1" || dollar_eq t "-O2" || dollar_eq t "-O3" ||
  dollar_eq t "-Os" ||
  sw t "-std=" || sw t "-f" || sw t "-m" || sw t "-Wno-" ||
  dollar_eq t "-m32" || dollar_eq t "-m64" || sw t "--sysroot=" || sw t "--gcc-toolchain="

/-- LINKER_OPTION_MAP_REGEX of the source; every arity is zero. -/
def linker_options_regex_match (t : String) : Bool :=
  dollar_sw t "-:L" || dollar_sw t "-l" || dollar_sw t "-shared" || dollar_sw t "-static"

/-- COMPILER_LINKER_OPTION_MAP of the source. -/
def COMPILER_LINKER_OPTION_MAP : List (String × Nat) :=
  [("-Xlinker", 1), ("-ftrapv-handler", 1), ("-lobjc", 0),
   ("-mios-simulator-version-min", 0), ("-miphoneos-version-min", 0),
   ("-mmacosx-version-min", 0), ("-no-pie", 0), ("-nostartfiles", 0),
   ("-nostdlib", 0), ("-pie", 0), ("-rdynamic", 0), ("-s", 0), ("-stdlib", 0),
   ("-target", 1), ("-v", 0), ("-write-strings", 0)]

/-- LINKER_OPTION_MAP of the source. -/
def LINKER_OPTION_MAP : List (String × Nat) :=
  [("-framework", 1), ("-fobjc-link-runtime", 0)]

/-- LINK_OPTION_MAP_MERGED of the source: the single -L prefix pattern. -/
def LINK_OPTION_MAP_MERGED : List (String × Bool) :=
  [("-L", false)]

/-- REPLACE_OPTIONS_MAP of the source: literal replacement sequences. -/
def REPLACE_OPTIONS_MAP : List (String × List String) :=
  [("-mips32", ["-target", "mips", "-mips32"]),
   ("-mips64", ["-target", "mips64", "-mips64"]),
   ("-mpowerpc", ["-target", "powerpc"]),
   ("-mpowerpc64", ["-target", "powerpc64"])]

/-- IGNORED_OPTION_MAP of the source. -/
def IGNORED_OPTION_MAP : List (String × Nat) :=
  [("-MT", 1), ("-MQ", 1), ("-MF", 1), ("-MJ", 1), ("-MM", 0), ("-MP", 0),
   ("-MD", 0), ("-MV", 0), ("-MMD", 0), ("-save-temps", 0), ("-install_name", 1),
   ("-exported_symbols_list", 1), ("-current_version", 1),
   ("-compatibility_version", 1), ("-init", 1), ("-e", 1), ("-seg1addr", 1),
   ("-bundle_loader", 1), ("-multiply_defined", 1), ("-sectorder", 3),
   ("--param", 1), ("-u", 1), ("--serialize-diagnostics", 1), ("-Werror", 0),
   ("-pedantic-errors", 0)]

/-- IGNORED_OPTION_MAP_REGEX of the source; every arity is zero. -/
def ignored_options_regex_match (t : String) : Bool :=
  dollar_sw t "-g" || sw t "-flto" || sw t "-mxl" || sw t "-mfloat-gprs"

/-- UNKNOWN_OPTIONS_MAP_REGEX of the source, translated pattern by pattern;
every arity is zero and the regex branch of the skip handler never consumes
trailing tokens. -/
def unknown_options_match (t : String) : Bool :=
  sw t "-fallow-fetchr-insn" || sw t "-fcall-saved-" || sw t "-fcond-mismatch" ||
  sw t "-fconserve-stack" || sw t "-fcrossjumping" || sw t "-fcse-follow-jumps" ||
  sw t "-fcse-skip-blocks" || sw t "-ffixed-r2" || dollar_eq t "-ffp" ||
  sw t "-fgcse-lm" || sw t "-fhoist-adjacent-loads" || sw t "-findirect-inlining" ||
  sw t "-finline-limit" || sw t "-finline-local-initialisers" || sw t "-fipa-sra" ||
  sw t "-fno-aggressive-loop-optimizations" || sw t "-fno-delete-null-pointer-checks" ||
  sw t "-fno-jump-table" || sw t "-fno-strength-reduce" || sw t "-fno-toplevel-reorder" ||
  sw t "-fno-unit-at-a-time" || sw t "-fno-var-tracking-assignments" ||
  sw t "-fpartial-inlining" || sw t "-fpeephole2" || dollar_eq t "-fr" ||
  sw t "-fregmove" || sw t "-frename-registers" || sw t "-freorder-functions" ||
  sw t "-frerun-cse-after-loop" || dollar_eq t "-fs" || sw t "-fsched-spec" ||
  sw t "-fthread-jumps" || sw t "-ftree-pre" || sw t "-ftree-switch-conversion" ||
  sw t "-ftree-tail-merge" ||
  dollar_sw t "-mabm" || dollar_sw t "-mno-abm" || dollar_sw t "-msdata" ||
  dollar_sw t "-mno-sdata" ||
  sw t "-mspe" || sw t "-mno-spe" || dollar_eq t "-mstring" || dollar_eq t "-mno-string" ||
  sw t "-mdsbt" || sw t "-mno-dsbt" || sw t "-mfixed-ssp" || sw t "-mno-fixed-ssp" ||
  sw t "-mpointers-to-nested-functions" || sw t "-mno-pointers-to-nested-functions" ||
  sw t "-mpcrel-func-addr" || sw t "-maccumulate-outgoing-args" ||
  sw t "-mcall-aixdesc" || sw t "-mppa3-addr-bug" || sw t "-mtraceback=" ||
  sw t "-mtext=" || sw t "-misa=" || dollar_eq t "-mfix-cortex-m3-ldrd" ||
  dollar_eq t "-mmultiple" || dollar_eq t "-msahf" || dollar_eq t "-mthumb-interwork" ||
  dollar_eq t "-mupdate" || sw t "-mapcs" || dollar_eq t "-fno-merge-const-bfstores" ||
  dollar_eq t "-fno-ipa-sra" || dollar_eq t "-mno-thumb-interwork" ||
  sw t "-mno-sched-prolog" || dollar_eq t "-DNDEBUG"

/-- The character class of the preprocessor action pattern: the source class
contains the seven option letters and, literally, the vertical bar used as a
separator inside the class. -/
def PRE_CLASS : List Char := ['T', '|', 'Q', 'F', 'J', 'P', 'V', 'M']

/-- A greedy run of class characters followed by the dollar anchor: class
characters are consumed, after which the remainder must be empty or one
final newline (no class character is a newline, so the greedy run never
needs to backtrack). -/
def class_star_dollar : List Char → Bool
  | [] => true
  | c :: rest =>
    if hasChar c PRE_CLASS then class_star_dollar rest
    else if c = '\n' then rest.isEmpty
    else false

/-- Translation of the preprocessor action matcher: dash E, or dash M
followed by class characters, closed by the dollar anchor.  The set_attr
handler of the source accepts a token when the regex matches or when the
token equals the pattern text itself (its condition is
regex-match-or-equality), so the literal pattern string is accepted as
well. -/
def preproc_match (t : String) : Bool :=
  (match t.data with
   | c1 :: c2 :: rest =>
     if c1 = '-' then
       if c2 = 'E' then dollar_end rest
       else if c2 = 'M' then class_star_dollar rest
       else false
     else false
   | _ => false) || streq t "^-(E|M[T|Q|F|J|P|V|M]*)$"

/-- Translation of the bare-file fallback pattern (caret, negated dash
class, dot-plus): at least two characters, not starting with a dash, and the
second character is not a newline (a regex dot does not match a newline). -/
def files_fallback_match (t : String) : Bool :=
  match t.data with
  | c :: d :: _ => if c = '-' then false else if d = '\n' then false else true
  | _ => false

/-- First matching merged-prefix pattern: each pattern is the prefix
followed by a captured dot-star (or dot-plus, when the nonempty flag is
set) and the dollar anchor.  The first pattern in table order whose whole
regex matches the token yields its captured group (a final newline of the
token is accepted by the dollar but excluded from the group); a pattern
that fails, also through the newline constraints or an empty dot-plus
group, falls through to the next pattern. -/
def mergedMatch (table : List (String × Bool)) (t : String) : Option String :=
  match table with
  | [] => none
  | (p, ne) :: ps =>
    if lcp p.data t.data then
      match dstar_group (t.data.drop p.data.length) with
      | some g => if ne && g.isEmpty then mergedMatch ps t else some ⟨g⟩
      | none => mergedMatch ps t
    else mergedMatch ps t

/- The result record and the action enumeration. -/

/-- ActionType of the source. -/
inductive ActionType where
  | LINK
  | COMPILE
  | PREPROCESS
  | INFO
deriving DecidableEq, Repr

/-- OptionParserResult of the source, with the field defaults of its
constructor. -/
structure OptionParserResult where
  action : ActionType := ActionType.COMPILE
  compile_opts : List String := []
  link_opts : List String := []
  files : List String := []
  arch : String := ""
  target : String := ""
  lang : Option String := none
  output : String := ""
  compiler : Option String := none
deriving DecidableEq, Repr

/-- The freshly initialised result record. -/
def init_result : OptionParserResult := {}

/-- The two fatal conditions of the engine: a handler advancing the shared
iterator past the end (StopIteration escaping the parse loop), and the
-filelist handler failing to open the referenced path. -/
inductive ParseError where
  | truncated
  | missingFileList (path : String)
deriving DecidableEq, Repr

instance {ε α : Type} [DecidableEq ε] [DecidableEq α] : DecidableEq (Except ε α) := fun a b =>
  match a, b with
  | .error x, .error y =>
    if h : x = y then .isTrue (by rw [h]) else .isFalse (by intro hc; cases hc; exact h rfl)
  | .ok x, .ok y =>
    if h : x = y then .isTrue (by rw [h]) else .isFalse (by intro hc; cases hc; exact h rfl)
  | .error _, .ok _ => .isFalse (by intro hc; cases hc)
  | .ok _, .error _ => .isFalse (by intro hc; cases hc)

/-- An abstract filesystem for the -filelist handler: a path maps to the
lines of the file, or to none when open() fails. -/
def FileSystem : Type := String → Option (List String)

/-- The filesystem on which every open() fails. -/
def fsNone : FileSystem := fun _ => none

/- The dispatcher.  Each handler of the arg_collection list of the source is
one Lean function returning none when its matcher does not accept the current
token, and some outcome when it fires.  The outcome carries the updated
result record and the number of tokens consumed from the remaining list, or
the fatal error the handler raised. -/

/-- One handler outcome: the updated record and the number of extra tokens
consumed, or a fatal error. -/
abbrev RuleOutcome : Type := Except ParseError (OptionParserResult × Nat)

/-- Handler append_replacement_to_list(REPLACE_OPTIONS_MAP, compile_opts):
on an exact key match the replacement items are appended and then the
iterator is advanced once more, consuming (and discarding) one following
token; with no following token the advance raises StopIteration. -/
def rule_replace (t : String) (rest : List String) (r : OptionParserResult) :
    Option RuleOutcome :=
  match lookupS t REPLACE_OPTIONS_MAP with
  | some items =>
    some (match rest with
      | [] => .error .truncated
      | _ :: _ => .ok ({ r with compile_opts := r.compile_opts ++ items }, 1))
  | none => none

/-- Handler skip(UNKNOWN_OPTIONS_MAP_REGEX, True): the regex branch of skip
returns on a match without consuming anything. -/
def rule_unknown (t : String) (r : OptionParserResult) : Option RuleOutcome :=
  if unknown_options_match t then some (.ok (r, 0)) else none

/-- Handler skip(IGNORED_OPTION_MAP): the exact branch of skip consumes the
declared number of trailing tokens. -/
def rule_ignored (t : String) (rest : List String) (r : OptionParserResult) :
    Option RuleOutcome :=
  match lookupS t IGNORED_OPTION_MAP with
  | some n => some (if n ≤ rest.length then .ok (r, n) else .error .truncated)
  | none => none

/-- Handler skip(IGNORED_OPTION_MAP_REGEX, True). -/
def rule_ignored_regex (t : String) (r : OptionParserResult) : Option RuleOutcome :=
  if ignored_options_regex_match t then some (.ok (r, 0)) else none

/-- Handler set_attr('-x', result, 'lang'): the attribute value is the next
token. -/
def rule_lang (t : String) (rest : List String) (r : OptionParserResult) :
    Option RuleOutcome :=
  if streq t "-x" then
    some (match rest with
      | [] => .error .truncated
      | a :: _ => .ok ({ r with lang := some a }, 1))
  else none

/-- Handler set_attr('-o', result, 'output'). -/
def rule_output (t : String) (rest : List String) (r : OptionParserResult) :
    Option RuleOutcome :=
  if streq t "-o" then
    some (match rest with
      | [] => .error .truncated
      | a :: _ => .ok ({ r with output := a }, 1))
  else none

/-- Handler set_attr('-arch', result, 'arch'). -/
def rule_arch (t : String) (rest : List String) (r : OptionParserResult) :
    Option RuleOutcome :=
  if streq t "-arch" then
    some (match rest with
      | [] => .error .truncated
      | a :: _ => .ok ({ r with arch := a }, 1))
  else none

/-- Handler set_attr('-c', result, 'action', COMPILE). -/
def rule_action_compile (t : String) (r : OptionParserResult) : Option RuleOutcome :=
  if streq t "-c" then some (.ok ({ r with action := ActionType.COMPILE }, 0)) else none

/-- Handler set_attr of the preprocessor pattern, setting action PREPROCESS. -/
def rule_action_preproc (t : String) (r : OptionParserResult) : Option RuleOutcome :=
  if preproc_match t then some (.ok ({ r with action := ActionType.PREPROCESS }, 0)) else none

/-- Handler set_attr('-print-prog-name', result, 'action', INFO). -/
def rule_action_info (t : String) (r : OptionParserResult) : Option RuleOutcome :=
  if streq t "-print-prog-name" then some (.ok ({ r with action := ActionType.INFO }, 0))
  else none

/-- Handler append_to_list(COMPILE_OPTION_MAP, compile_opts): the matched
token and its declared number of trailing tokens are appended in order. -/
def rule_compile_exact (t : String) (rest : List String) (r : OptionParserResult) :
    Option RuleOutcome :=
  match lookupS t COMPILE_OPTION_MAP with
  | some n =>
    some (if n ≤ rest.length then
        .ok ({ r with compile_opts := r.compile_opts ++ t :: rest.take n }, n)
      else .error .truncated)
  | none => none

/-- Handler append_to_list(COMPILER_LINKER_OPTION_MAP, link_opts). -/
def rule_compiler_linker (t : String) (rest : List String) (r : OptionParserResult) :
    Option RuleOutcome :=
  match lookupS t COMPILER_LINKER_OPTION_MAP with
  | some n =>
    some (if n ≤ rest.length then
        .ok ({ r with link_opts := r.link_opts ++ t :: rest.take n }, n)
      else .error .truncated)
  | none => none

/-- Handler append_to_list(LINKER_OPTION_MAP_REGEX, link_opts, True); every
arity in the table is zero. -/
def rule_linker_regex (t : String) (r : OptionParserResult) : Option RuleOutcome :=
  if linker_options_regex_match t then
    some (.ok ({ r with link_opts := r.link_opts ++ [t] }, 0))
  else none

/-- Handler append_to_list(COMPILE_OPTION_MAP_REGEX, compile_opts, True);
every arity in the table is zero. -/
def rule_compile_regex (t : String) (r : OptionParserResult) : Option RuleOutcome :=
  if compile_options_regex_match t then
    some (.ok ({ r with compile_opts := r.compile_opts ++ [t] }, 0))
  else none

/-- Handler append_merged_to_list(COMPILE_OPTION_MAP_MERGED, compile_opts):
with an empty captured suffix the next token is consumed and concatenated
directly to the current token; otherwise the current token is stored. -/
def rule_compile_merged (t : String) (rest : List String) (r : OptionParserResult) :
    Option RuleOutcome :=
  match mergedMatch COMPILE_OPTION_MAP_MERGED t with
  | some g =>
    some (if streq g "" then
        match rest with
        | [] => .error .truncated
        | a :: _ => .ok ({ r with compile_opts := r.compile_opts ++ [t ++ a] }, 1)
      else .ok ({ r with compile_opts := r.compile_opts ++ [t] }, 0))
  | none => none

/-- Handler append_merged_to_list(LINK_OPTION_MAP_MERGED, link_opts). -/
def rule_link_merged (t : String) (rest : List String) (r : OptionParserResult) :
    Option RuleOutcome :=
  match mergedMatch LINK_OPTION_MAP_MERGED t with
  | some g =>
    some (if streq g "" then
        match rest with
        | [] => .error .truncated
        | a :: _ => .ok ({ r with link_opts := r.link_opts ++ [t ++ a] }, 1)
      else .ok ({ r with link_opts := r.link_opts ++ [t] }, 0))
  | none => none

/-- Handler skip(LINKER_OPTION_MAP): the exact branch of skip consumes the
declared number of trailing tokens and stores nothing. -/
def rule_linker_exact (t : String) (rest : List String) (r : OptionParserResult) :
    Option RuleOutcome :=
  match lookupS t LINKER_OPTION_MAP with
  | some n => some (if n ≤ rest.length then .ok (r, n) else .error .truncated)
  | none => none

/-- Handler append_to_list_from_file('-filelist', files): the next token is
a path whose lines, stripped, are appended to files; a failing open() is the
fatal missing-file-list error. -/
def rule_filelist (fs : FileSystem) (t : String) (rest : List String)
    (r : OptionParserResult) : Option RuleOutcome :=
  if streq t "-filelist" then
    some (match rest with
      | [] => .error .truncated
      | a :: _ =>
        match fs a with
        | none => .error (.missingFileList a)
        | some lines => .ok ({ r with files := r.files ++ lines.map pyStrip }, 1))
  else none

/-- Handler append_to_list of the bare-file fallback pattern. -/
def rule_files (t : String) (r : OptionParserResult) : Option RuleOutcome :=
  if files_fallback_match t then some (.ok ({ r with files := r.files ++ [t] }, 0)) else none

/-- First-match dispatch over the handler outcomes: the first handler that
fired decides the outcome; when none fired the token is dropped and nothing
is consumed. -/
def dispatch : List (Option RuleOutcome) → OptionParserResult → RuleOutcome
  | [], r => .ok (r, 0)
  | some res :: _, _ => res
  | none :: l, r => dispatch l r

/-- The arg_collection list of the source: the outcomes of the nineteen
handlers on the current token, in the declared priority order. -/
def arg_collection (fs : FileSystem) (t : String) (rest : List String)
    (r : OptionParserResult) : List (Option RuleOutcome) :=
  [rule_replace t rest r,
   rule_unknown t r,
   rule_ignored t rest r,
   rule_ignored_regex t r,
   rule_lang t rest r,
   rule_output t rest r,
   rule_arch t rest r,
   rule_action_compile t r,
   rule_action_preproc t r,
   rule_action_info t r,
   rule_compile_exact t rest r,
   rule_compiler_linker t rest r,
   rule_linker_regex t r,
   rule_compile_regex t r,
   rule_compile_merged t rest r,
   rule_link_merged t rest r,
   rule_linker_exact t rest r,
   rule_filelist fs t rest r,
   rule_files t r]

/-- Translation of arg_check of the source: the handlers of arg_collection
are tried in the declared order on the current token t; the first matching
handler fires and consumes the reported number of tokens from the remaining
list rest.  When no handler matches the token is dropped (diagnostics only)
and nothing is consumed. -/
def arg_check (fs : FileSystem) (t : String) (rest : List String)
    (r : OptionParserResult) : RuleOutcome :=
  dispatch (arg_collection fs t rest r) r

/-- The token-consuming loop of parse_options: one arg_check call per
remaining current token, skipping the tokens the handler consumed.  The fuel
argument makes the recursion structural; parse_options supplies fuel equal
to the token count, which is always sufficient because every step removes at
least the current token. -/
def parse_loop (fs : FileSystem) : Nat → List String → OptionParserResult →
    Except ParseError OptionParserResult
  | _, [], r => .ok r
  | 0, _ :: _, r => .ok r
  | fuel + 1, t :: rest, r =>
    match arg_check fs t rest r with
    | .error e => .error e
    | .ok (r', n) => parse_loop fs fuel (rest.drop n) r'

/-- The extension part of Python os.path.splitext: the suffix of the
basename from its last dot, provided some character of the basename before
that dot is not itself a dot (leading dots of the basename never start an
extension). -/
def splitext_ext (p : String) : String :=
  let b := (p.data.reverse.takeWhile (fun c => c ≠ '/')).reverse
  match b.reverse.dropWhile (fun c => c ≠ '.') with
  | [] => ""
  | _ :: pre =>
    if pre.any (fun c => c ≠ '.') then
      ⟨'.' :: (b.reverse.takeWhile (fun c => c ≠ '.')).reverse⟩
    else ""

/-- Python str.rstrip applied with the double-quote character, as used on
the extracted extension. -/
def rstrip_quote (s : String) : String :=
  ⟨(s.data.reverse.dropWhile (fun c => c = '"')).reverse⟩

/-- get_language of the source: the closed extension-to-language mapping. -/
def get_language (extension : String) : Option String :=
  lookupS extension
    [(".c", "c"), (".cp", "c++"), (".cpp", "c++"), (".cxx", "c++"), (".txx", "c++"),
     (".cc", "c++"), (".C", "c++"), (".ii", "c++"), (".m", "objective-c"),
     (".mm", "objective-c++")]

/-- The language detected for one entry of the files list, as computed in
the source-detection loop of parse_options. -/
def file_lang (f : String) : Option String :=
  get_language (rstrip_quote (splitext_ext f))

/-- The post-pass of parse_options (lines 539-574 of the source): re-escape
quoted compile options, record the compiler, force the language for a C++
compiler name, detect the first recognised source file, and downgrade the
action to LINK when none is found. -/
def postpass (compiler : String) (r0 : OptionParserResult) : OptionParserResult :=
  let r3 : OptionParserResult := { r0 with
    compile_opts := r0.compile_opts.map requote,
    compiler := some compiler,
    lang := if has_pp compiler.data then some "c++" else r0.lang }
  match r3.files.find? (fun f => (file_lang f).isSome) with
  | some f => if r3.lang = none then { r3 with lang := file_lang f } else r3
  | none => { r3 with action := ActionType.LINK }

/-- Translation of parse_options of the source.  The compiler token and the
argument tokens are received separately (the source takes the token list
produced by shlex.split and splits off its head). -/
def parse_options (fs : FileSystem) (compiler : String) (args : List String) :
    Except ParseError OptionParserResult :=
  (parse_loop fs args.length args init_result).map (postpass compiler)

/-- The disjunction of all matcher conditions of the nineteen handlers: a
token on which this is false matches no rule and is dropped with a
diagnostic only. -/
def matches_some_rule (t : String) : Bool :=
  (lookupS t REPLACE_OPTIONS_MAP).isSome || unknown_options_match t ||
  (lookupS t IGNORED_OPTION_MAP).isSome || ignored_options_regex_match t ||
  streq t "-x" || streq t "-o" || streq t "-arch" || streq t "-c" ||
  preproc_match t || streq t "-print-prog-name" ||
  (lookupS t COMPILE_OPTION_MAP).isSome ||
  (lookupS t COMPILER_LINKER_OPTION_MAP).isSome ||
  linker_options_regex_match t || compile_options_regex_match t ||
  (mergedMatch COMPILE_OPTION_MAP_MERGED t).isSome ||
  (mergedMatch LINK_OPTION_MAP_MERGED t).isSome ||
  (lookupS t LINKER_OPTION_MAP).isSome || streq t "-filelist" ||
  files_fallback_match t

/-- A token that fires one of the three action-setting handlers: the
explicit compile flag, the preprocessor flag family, or the info query. -/
def is_action_flag (t : String) : Bool :=
  streq t "-c" || preproc_match t || streq t "-print-prog-name"

/-- The merged compile prefixes for which the spaced and the adjacent form
agree: every prefix of COMPILE_OPTION_MAP_MERGED except -F (whose pattern
requires a nonempty adjacent suffix, so the prefix alone never matches) and
-iwithprefixbefore (which, supplied alone, is captured by the earlier
-iwithprefix pattern with the nonempty suffix before, so the next token is
not consumed). -/
def MERGED_IDEMPOTENT_PREFIXES : List String :=
  ["-iquote", "-D", "-I", "-U", "-idirafter", "-isystem", "-imacros", "-include",
   "-isysroot", "-iprefix", "-iwithprefix"]

/- Foundational lemmas about the string machinery. -/

theorem leq_iff : ∀ a b : List Char, leq a b = true ↔ a = b
  | [], [] => by simp [leq]
  | _ :: _, [] => by simp [leq]
  | [], _ :: _ => by simp [leq]
  | a :: as, b :: bs => by
    simp only [leq]
    by_cases h : a = b
    · simp [h, leq_iff as bs]
    · simp [h]

theorem streq_iff (s t : String) : streq s t = true ↔ s = t := by
  cases s; cases t; simp [streq, leq_iff, String.ext_iff]

theorem dstar_group_total {l : List Char} (h : hasChar '\n' l = false) :
    dstar_group l = some l := by
  induction l with
  | nil => rfl
  | cons c rest ih =>
    by_cases hc : c = '\n'
    · rw [hc] at h; simp [hasChar] at h
    · have hrest : hasChar '\n' rest = false := by
        simpa [hasChar, hc] using h
      simp [dstar_group, hc, ih hrest]

/- Outcome characterisations of the individual handlers, used to lift
invariants through the first-match dispatch. -/

theorem rule_replace_action {t : String} {rest : List String} {r r' : OptionParserResult} {n : Nat} (h : rule_replace t rest r = some (.ok (r', n))) : r'.action = r.action := by
  unfold rule_replace at h
  repeat' split at h
  all_goals (try cases h)
  all_goals rfl

theorem rule_replace_error {t : String} {rest : List String} {r : OptionParserResult} {e : ParseError} (h : rule_replace t rest r = some (.error e)) : e = ParseError.truncated := by
  unfold rule_replace at h
  repeat' split at h
  all_goals (try cases h)
  all_goals rfl

theorem rule_replace_none {t : String} {rest : List String} {r : OptionParserResult} (h : lookupS t REPLACE_OPTIONS_MAP = none) : rule_replace t rest r = none := by
  simp [rule_replace, h]

theorem rule_ignored_action {t : String} {rest : List String} {r r' : OptionParserResult} {n : Nat} (h : rule_ignored t rest r = some (.ok (r', n))) : r'.action = r.action := by
  unfold rule_ignored at h
  repeat' split at h
  all_goals (try cases h)
  all_goals rfl

theorem rule_ignored_error {t : String} {rest : List String} {r : OptionParserResult} {e : ParseError} (h : rule_ignored t rest r = some (.error e)) : e = ParseError.truncated := by
  unfold rule_ignored at h
  repeat' split at h
  all_goals (try cases h)
  all_goals rfl

theorem rule_ignored_none {t : String} {rest : List String} {r : OptionParserResult} (h : lookupS t IGNORED_OPTION_MAP = none) : rule_ignored t rest r = none := by
  simp [rule_ignored, h]

theorem rule_lang_action {t : String} {rest : List String} {r r' : OptionParserResult} {n : Nat} (h : rule_lang t rest r = some (.ok (r', n))) : r'.action = r.action := by
  unfold rule_lang at h
  repeat' split at h
  all_goals (try cases h)
  all_goals rfl

theorem rule_lang_error {t : String} {rest : List String} {r : OptionParserResult} {e : ParseError} (h : rule_lang t rest r = some (.error e)) : e = ParseError.truncated := by
  unfold rule_lang at h
  repeat' split at h
  all_goals (try cases h)
  all_goals rfl

theorem rule_lang_none {t : String} {rest : List String} {r : OptionParserResult} (h : streq t "-x" = false) : rule_lang t rest r = none := by
  simp [rule_lang, h]

theorem rule_output_action {t : String} {rest : List String} {r r' : OptionParserResult} {n : Nat} (h : rule_output t rest r = some (.ok (r', n))) : r'.action = r.action := by
  unfold rule_output at h
  repeat' split at h
  all_goals (try cases h)
  all_goals rfl

theorem rule_output_error {t : String} {rest : List String} {r : OptionParserResult} {e : ParseError} (h : rule_output t rest r = some (.error e)) : e = ParseError.truncated := by
  unfold rule_output at h
  repeat' split at h
  all_goals (try cases h)
  all_goals rfl

theorem rule_output_none {t : String} {rest : List String} {r : OptionParserResult} (h : streq t "-o" = false) : rule_output t rest r = none := by
  simp [rule_output, h]

theorem rule_arch_action {t : String} {rest : List String} {r r' : OptionParserResult} {n : Nat} (h : rule_arch t rest r = some (.ok (r', n))) : r'.action = r.action := by
  unfold rule_arch at h
  repeat' split at h
  all_goals (try cases h)
  all_goals rfl

theorem rule_arch_error {t : String} {rest : List String} {r : OptionParserResult} {e : ParseError} (h : rule_arch t rest r = some (.error e)) : e = ParseError.truncated := by
  unfold rule_arch at h
  repeat' split at h
  all_goals (try cases h)
  all_goals rfl

theorem rule_arch_none {t : String} {rest : List String} {r : OptionParserResult} (h : streq t "-arch" = false) : rule_arch t rest r = none := by
  simp [rule_arch, h]

theorem rule_compile_exact_action {t : String} {rest : List String} {r r' : OptionParserResult} {n : Nat} (h : rule_compile_exact t rest r = some (.ok (r', n))) : r'.action = r.action := by
  unfold rule_compile_exact at h
  repeat' split at h
  all_goals (try cases h)
  all_goals rfl

theorem rule_compile_exact_error {t : String} {rest : List String} {r : OptionParserResult} {e : ParseError} (h : rule_compile_exact t rest r = some (.error e)) : e = ParseError.truncated := by
  unfold rule_compile_exact at h
  repeat' split at h
  all_goals (try cases h)
  all_goals rfl

theorem rule_compile_exact_none {t : String} {rest : List String} {r : OptionParserResult} (h : lookupS t COMPILE_OPTION_MAP = none) : rule_compile_exact t rest r = none := by
  simp [rule_compile_exact, h]

theorem rule_compiler_linker_action {t : String} {rest : List String} {r r' : OptionParserResult} {n : Nat} (h : rule_compiler_linker t rest r = some (.ok (r', n))) : r'.action = r.action := by
  unfold rule_compiler_linker at h
  repeat' split at h
  all_goals (try cases h)
  all_goals rfl

theorem rule_compiler_linker_error {t : String} {rest : List String} {r : OptionParserResult} {e : ParseError} (h : rule_compiler_linker t rest r = some (.error e)) : e = ParseError.truncated := by
  unfold rule_compiler_linker at h
  repeat' split at h
  all_goals (try cases h)
  all_goals rfl

theorem rule_compiler_linker_none {t : String} {rest : List String} {r : OptionParserResult} (h : lookupS t COMPILER_LINKER_OPTION_MAP = none) : rule_compiler_linker t rest r = none := by
  simp [rule_compiler_linker, h]

theorem rule_compile_merged_action {t : String} {rest : List String} {r r' : OptionParserResult} {n : Nat} (h : rule_compile_merged t rest r = some (.ok (r', n))) : r'.action = r.action := by
  unfold rule_compile_merged at h
  repeat' split at h
  all_goals (try cases h)
  all_goals rfl

theorem rule_compile_merged_error {t : String} {rest : List String} {r : OptionParserResult} {e : ParseError} (h : rule_compile_merged t rest r = some (.error e)) : e = ParseError.truncated := by
  unfold rule_compile_merged at h
  repeat' split at h
  all_goals (try cases h)
  all_goals rfl

theorem rule_compile_merged_none {t : String} {rest : List String} {r : OptionParserResult} (h : mergedMatch COMPILE_OPTION_MAP_MERGED t = none) : rule_compile_merged t rest r = none := by
  simp [rule_compile_merged, h]

theorem rule_link_merged_action {t : String} {rest : List String} {r r' : OptionParserResult} {n : Nat} (h : rule_link_merged t rest r = some (.ok (r', n))) : r'.action = r.action := by
  unfold rule_link_merged at h
  repeat' split at h
  all_goals (try cases h)
  all_goals rfl

theorem rule_link_merged_error {t : String} {rest : List String} {r : OptionParserResult} {e : ParseError} (h : rule_link_merged t rest r = some (.error e)) : e = ParseError.truncated := by
  unfold rule_link_merged at h
  repeat' split at h
  all_goals (try cases h)
  all_goals rfl

theorem rule_link_merged_none {t : String} {rest : List String} {r : OptionParserResult} (h : mergedMatch LINK_OPTION_MAP_MERGED t = none) : rule_link_merged t rest r = none := by
  simp [rule_link_merged, h]

theorem rule_linker_exact_action {t : String} {rest : List String} {r r' : OptionParserResult} {n : Nat} (h : rule_linker_exact t rest r = some (.ok (r', n))) : r'.action = r.action := by
  unfold rule_linker_exact at h
  repeat' split at h
  all_goals (try cases h)
  all_goals rfl

theorem rule_linker_exact_error {t : String} {rest : List String} {r : OptionParserResult} {e : ParseError} (h : rule_linker_exact t rest r = some (.error e)) : e = ParseError.truncated := by
  unfold rule_linker_exact at h
  repeat' split at h
  all_goals (try cases h)
  all_goals rfl

theorem rule_linker_exact_none {t : String} {rest : List String} {r : OptionParserResult} (h : lookupS t LINKER_OPTION_MAP = none) : rule_linker_exact t rest r = none := by
  simp [rule_linker_exact, h]

theorem rule_unknown_action {t : String} {r r' : OptionParserResult} {n : Nat} (h : rule_unknown t r = some (.ok (r', n))) : r'.action = r.action := by
  unfold rule_unknown at h
  repeat' split at h
  all_goals (try cases h)
  all_goals rfl

theorem rule_unknown_error {t : String} {r : OptionParserResult} {e : ParseError} (h : rule_unknown t r = some (.error e)) : False := by
  unfold rule_unknown at h
  repeat' split at h
  all_goals cases h

theorem rule_unknown_none {t : String} {r : OptionParserResult} (h : unknown_options_match t = false) : rule_unknown t r = none := by
  simp [rule_unknown, h]

theorem rule_ignored_regex_action {t : String} {r r' : OptionParserResult} {n : Nat} (h : rule_ignored_regex t r = some (.ok (r', n))) : r'.action = r.action := by
  unfold rule_ignored_regex at h
  repeat' split at h
  all_goals (try cases h)
  all_goals rfl

theorem rule_ignored_regex_error {t : String} {r : OptionParserResult} {e : ParseError} (h : rule_ignored_regex t r = some (.error e)) : False := by
  unfold rule_ignored_regex at h
  repeat' split at h
  all_goals cases h

theorem rule_ignored_regex_none {t : String} {r : OptionParserResult} (h : ignored_options_regex_match t = false) : rule_ignored_regex t r = none := by
  simp [rule_ignored_regex, h]

theorem rule_linker_regex_action {t : String} {r r' : OptionParserResult} {n : Nat} (h : rule_linker_regex t r = some (.ok (r', n))) : r'.action = r.action := by
  unfold rule_linker_regex at h
  repeat' split at h
  all_goals (try cases h)
  all_goals rfl

theorem rule_linker_regex_error {t : String} {r : OptionParserResult} {e : ParseError} (h : rule_linker_regex t r = some (.error e)) : False := by
  unfold rule_linker_regex at h
  repeat' split at h
  all_goals cases h

theorem rule_linker_regex_none {t : String} {r : OptionParserResult} (h : linker_options_regex_match t = false) : rule_linker_regex t r = none := by
  simp [rule_linker_regex, h]

theorem rule_compile_regex_action {t : String} {r r' : OptionParserResult} {n : Nat} (h : rule_compile_regex t r = some (.ok (r', n))) : r'.action = r.action := by
  unfold rule_compile_regex at h
  repeat' split at h
  all_goals (try cases h)
  all_goals rfl

theorem rule_compile_regex_error {t : String} {r : OptionParserResult} {e : ParseError} (h : rule_compile_regex t r = some (.error e)) : False := by
  unfold rule_compile_regex at h
  repeat' split at h
  all_goals cases h

theorem rule_compile_regex_none {t : String} {r : OptionParserResult} (h : compile_options_regex_match t = false) : rule_compile_regex t r = none := by
  simp [rule_compile_regex, h]

theorem rule_files_action {t : String} {r r' : OptionParserResult} {n : Nat} (h : rule_files t r = some (.ok (r', n))) : r'.action = r.action := by
  unfold rule_files at h
  repeat' split at h
  all_goals (try cases h)
  all_goals rfl

theorem rule_files_error {t : String} {r : OptionParserResult} {e : ParseError} (h : rule_files t r = some (.error e)) : False := by
  unfold rule_files at h
  repeat' split at h
  all_goals cases h

theorem rule_files_none {t : String} {r : OptionParserResult} (h : files_fallback_match t = false) : rule_files t r = none := by
  simp [rule_files, h]

theorem rule_action_compile_error {t : String} {r : OptionParserResult} {e : ParseError} (h : rule_action_compile t r = some (.error e)) : False := by
  unfold rule_action_compile at h
  repeat' split at h
  all_goals cases h

theorem rule_action_compile_none {t : String} {r : OptionParserResult} (h : streq t "-c" = false) : rule_action_compile t r = none := by
  simp [rule_action_compile, h]

theorem rule_action_compile_fires {t : String} {r : OptionParserResult} {x : RuleOutcome} (h : rule_action_compile t r = some x) : streq t "-c" = true := by
  unfold rule_action_compile at h
  repeat' split at h
  all_goals (try cases h)
  all_goals assumption

theorem rule_action_preproc_error {t : String} {r : OptionParserResult} {e : ParseError} (h : rule_action_preproc t r = some (.error e)) : False := by
  unfold rule_action_preproc at h
  repeat' split at h
  all_goals cases h

theorem rule_action_preproc_none {t : String} {r : OptionParserResult} (h : preproc_match t = false) : rule_action_preproc t r = none := by
  simp [rule_action_preproc, h]

theorem rule_action_preproc_fires {t : String} {r : OptionParserResult} {x : RuleOutcome} (h : rule_action_preproc t r = some x) : preproc_match t = true := by
  unfold rule_action_preproc at h
  repeat' split at h
  all_goals (try cases h)
  all_goals assumption

theorem rule_action_info_error {t : String} {r : OptionParserResult} {e : ParseError} (h : rule_action_info t r = some (.error e)) : False := by
  unfold rule_action_info at h
  repeat' split at h
  all_goals cases h

theorem rule_action_info_none {t : String} {r : OptionParserResult} (h : streq t "-print-prog-name" = false) : rule_action_info t r = none := by
  simp [rule_action_info, h]

theorem rule_action_info_fires {t : String} {r : OptionParserResult} {x : RuleOutcome} (h : rule_action_info t r = some x) : streq t "-print-prog-name" = true := by
  unfold rule_action_info at h
  repeat' split at h
  all_goals (try cases h)
  all_goals assumption

theorem rule_filelist_none {fs : FileSystem} {t : String} {rest : List String} {r : OptionParserResult} (h : streq t "-filelist" = false) : rule_filelist fs t rest r = none := by
  simp [rule_filelist, h]

theorem rule_filelist_action {fs : FileSystem} {t : String} {rest : List String}
    {r r' : OptionParserResult} {n : Nat}
    (h : rule_filelist fs t rest r = some (.ok (r', n))) : r'.action = r.action := by
  unfold rule_filelist at h
  repeat' split at h
  all_goals (try cases h)
  all_goals rfl

/- Lifting the handler facts through the dispatch. -/

theorem dispatch_ok_action {r r' : OptionParserResult} {n : Nat} :
    ∀ {l : List (Option RuleOutcome)},
    (∀ x ∈ l, ∀ r'' n', x = some (.ok (r'', n')) → r''.action = r.action) →
    dispatch l r = .ok (r', n) → r'.action = r.action := by
  intro l
  induction l with
  | nil => intro _ h; cases h; rfl
  | cons x l ih =>
    intro hl h
    cases x with
    | some res =>
      have h' : res = Except.ok (r', n) := h
      exact hl (some res) (List.mem_cons_self _ _) r' n (by rw [h'])
    | none => exact ih (fun y hy => hl y (by simp [hy])) h

theorem dispatch_error {r : OptionParserResult} {e : ParseError} :
    ∀ {l : List (Option RuleOutcome)},
    (∀ x ∈ l, ∀ e', x = some (.error e') → e' = ParseError.truncated) →
    dispatch l r = .error e → e = ParseError.truncated := by
  intro l
  induction l with
  | nil => intro _ h; cases h
  | cons x l ih =>
    intro hl h
    cases x with
    | some res =>
      have h' : res = Except.error e := h
      exact hl (some res) (List.mem_cons_self _ _) e (by rw [h'])
    | none => exact ih (fun y hy => hl y (by simp [hy])) h

theorem arg_check_action {fs : FileSystem} {t : String} {rest : List String}
    {r r' : OptionParserResult} {n : Nat} (h : arg_check fs t rest r = .ok (r', n))
    (hc : streq t "-c" = false) (hp : preproc_match t = false)
    (hi : streq t "-print-prog-name" = false) : r'.action = r.action := by
  unfold arg_check at h
  refine dispatch_ok_action ?_ h
  intro x hx r'' n' hx2
  simp only [arg_collection, List.mem_cons, List.not_mem_nil, or_false] at hx
  rcases hx with rfl|rfl|rfl|rfl|rfl|rfl|rfl|rfl|rfl|rfl|rfl|rfl|rfl|rfl|rfl|rfl|rfl|rfl|rfl
  · exact rule_replace_action hx2
  · exact rule_unknown_action hx2
  · exact rule_ignored_action hx2
  · exact rule_ignored_regex_action hx2
  · exact rule_lang_action hx2
  · exact rule_output_action hx2
  · exact rule_arch_action hx2
  · rw [rule_action_compile_none hc] at hx2; cases hx2
  · rw [rule_action_preproc_none hp] at hx2; cases hx2
  · rw [rule_action_info_none hi] at hx2; cases hx2
  · exact rule_compile_exact_action hx2
  · exact rule_compiler_linker_action hx2
  · exact rule_linker_regex_action hx2
  · exact rule_compile_regex_action hx2
  · exact rule_compile_merged_action hx2
  · exact rule_link_merged_action hx2
  · exact rule_linker_exact_action hx2
  · exact rule_filelist_action hx2
  · exact rule_files_action hx2

theorem arg_check_error {fs : FileSystem} {t : String} {rest : List String}
    {r : OptionParserResult} {e : ParseError} (h : arg_check fs t rest r = .error e) :
    e = ParseError.truncated := by
  by_cases hfl : streq t "-filelist" = true
  · obtain rfl := (streq_iff _ _).mp hfl
    simp [arg_check, arg_collection, dispatch, rule_replace, rule_unknown, rule_ignored,
      rule_ignored_regex, rule_lang, rule_output, rule_arch, rule_action_compile,
      rule_action_preproc, rule_action_info, rule_compile_exact, rule_compiler_linker,
      rule_linker_regex, rule_compile_regex, lookupS, streq, leq, lcp, sw, dollar_end, dstar_ok, dstar_group, dollar_eq,
      dollar_sw, class_star_dollar,
      unknown_options_match, ignored_options_regex_match, preproc_match,
      compile_options_regex_match, linker_options_regex_match, PRE_CLASS, hasChar,
      REPLACE_OPTIONS_MAP, IGNORED_OPTION_MAP, COMPILE_OPTION_MAP,
      COMPILER_LINKER_OPTION_MAP] at h
  · replace hfl : streq t "-filelist" = false := by
      cases hq : streq t "-filelist" with
      | false => rfl
      | true => exact absurd hq hfl
    unfold arg_check at h
    refine dispatch_error ?_ h
    intro x hx e' hx2
    simp only [arg_collection, List.mem_cons, List.not_mem_nil, or_false] at hx
    rcases hx with rfl|rfl|rfl|rfl|rfl|rfl|rfl|rfl|rfl|rfl|rfl|rfl|rfl|rfl|rfl|rfl|rfl|rfl|rfl
    · exact rule_replace_error hx2
    · exact (rule_unknown_error hx2).elim
    · exact rule_ignored_error hx2
    · exact (rule_ignored_regex_error hx2).elim
    · exact rule_lang_error hx2
    · exact rule_output_error hx2
    · exact rule_arch_error hx2
    · exact (rule_action_compile_error hx2).elim
    · exact (rule_action_preproc_error hx2).elim
    · exact (rule_action_info_error hx2).elim
    · exact rule_compile_exact_error hx2
    · exact rule_compiler_linker_error hx2
    · exact (rule_linker_regex_error hx2).elim
    · exact (rule_compile_regex_error hx2).elim
    · exact rule_compile_merged_error hx2
    · exact rule_link_merged_error hx2
    · exact rule_linker_exact_error hx2
    · rw [rule_filelist_none hfl] at hx2; cases hx2
    · exact (rule_files_error hx2).elim

theorem isSome_false {α : Type} {o : Option α} (h : o.isSome = false) : o = none := by
  cases o <;> simp_all

theorem arg_check_unmatched {fs : FileSystem} {t : String} {rest : List String}
    {r : OptionParserResult} (hf : matches_some_rule t = false) :
    arg_check fs t rest r = .ok (r, 0) := by
  simp only [matches_some_rule, Bool.or_eq_false_iff] at hf
  obtain ⟨⟨⟨⟨⟨⟨⟨⟨⟨⟨⟨⟨⟨⟨⟨⟨⟨⟨h1, h2⟩, h3⟩, h4⟩, h5⟩, h6⟩, h7⟩, h8⟩, h9⟩, h10⟩,
    h11⟩, h12⟩, h13⟩, h14⟩, h15⟩, h16⟩, h17⟩, h18⟩, h19⟩ := hf
  unfold arg_check arg_collection
  rw [rule_replace_none (isSome_false h1), rule_unknown_none h2,
    rule_ignored_none (isSome_false h3), rule_ignored_regex_none h4,
    rule_lang_none h5, rule_output_none h6, rule_arch_none h7,
    rule_action_compile_none h8, rule_action_preproc_none h9,
    rule_action_info_none h10, rule_compile_exact_none (isSome_false h11),
    rule_compiler_linker_none (isSome_false h12), rule_linker_regex_none h13,
    rule_compile_regex_none h14, rule_compile_merged_none (isSome_false h15),
    rule_link_merged_none (isSome_false h16),
    rule_linker_exact_none (isSome_false h17), rule_filelist_none h18,
    rule_files_none h19]
  rfl

/- Lifting the facts through the token loop. -/

theorem parse_loop_error {fs : FileSystem} :
    ∀ (fuel : Nat) (l : List String) (r : OptionParserResult) (e : ParseError),
    parse_loop fs fuel l r = .error e → e = ParseError.truncated := by
  intro fuel
  induction fuel with
  | zero => intro l r e h; cases l <;> simp [parse_loop] at h
  | succ fuel ih =>
    intro l r e h
    cases l with
    | nil => simp [parse_loop] at h
    | cons t rest =>
      rw [parse_loop] at h
      cases hac : arg_check fs t rest r with
      | error e' =>
        rw [hac] at h
        cases h
        exact arg_check_error hac
      | ok p =>
        obtain ⟨r', n⟩ := p
        rw [hac] at h
        exact ih _ _ _ h

theorem parse_loop_action {fs : FileSystem} :
    ∀ (fuel : Nat) (l : List String) (r r' : OptionParserResult),
    (∀ t ∈ l, is_action_flag t = false) →
    parse_loop fs fuel l r = .ok r' → r'.action = r.action := by
  intro fuel
  induction fuel with
  | zero =>
    intro l r r' _ h
    cases l with
    | nil => cases h; rfl
    | cons t rest => cases h; rfl
  | succ fuel ih =>
    intro l r r' hl h
    cases l with
    | nil => cases h; rfl
    | cons t rest =>
      rw [parse_loop] at h
      have ht := hl t (List.mem_cons_self t rest)
      simp only [is_action_flag, Bool.or_eq_false_iff] at ht
      cases hac : arg_check fs t rest r with
      | error e' => rw [hac] at h; cases h
      | ok p =>
        obtain ⟨r'', n⟩ := p
        rw [hac] at h
        have h2 := ih (rest.drop n) r'' r'
          (fun u hu => hl u (List.mem_cons_of_mem t (List.mem_of_mem_drop hu))) h
        rw [h2]
        exact arg_check_action hac ht.1.1 ht.1.2 ht.2

/- The post-pass leaves every field except compiler, lang and action alone,
sets compiler from its argument, and downgrades the action exactly when no
recognised source file is present. -/

theorem postpass_files (c : String) (r0 : OptionParserResult) :
    (postpass c r0).files = r0.files := by
  unfold postpass
  dsimp only
  cases hfind : List.find? (fun f => (file_lang f).isSome) r0.files
  all_goals simp [hfind]
  all_goals repeat' split
  all_goals rfl

theorem postpass_compile_opts (c : String) (r0 : OptionParserResult) :
    (postpass c r0).compile_opts = r0.compile_opts.map requote := by
  unfold postpass
  dsimp only
  cases hfind : List.find? (fun f => (file_lang f).isSome) r0.files
  all_goals simp [hfind]
  all_goals repeat' split
  all_goals rfl

theorem postpass_link_opts (c : String) (r0 : OptionParserResult) :
    (postpass c r0).link_opts = r0.link_opts := by
  unfold postpass
  dsimp only
  cases hfind : List.find? (fun f => (file_lang f).isSome) r0.files
  all_goals simp [hfind]
  all_goals repeat' split
  all_goals rfl

theorem postpass_output (c : String) (r0 : OptionParserResult) :
    (postpass c r0).output = r0.output := by
  unfold postpass
  dsimp only
  cases hfind : List.find? (fun f => (file_lang f).isSome) r0.files
  all_goals simp [hfind]
  all_goals repeat' split
  all_goals rfl

theorem postpass_arch (c : String) (r0 : OptionParserResult) :
    (postpass c r0).arch = r0.arch := by
  unfold postpass
  dsimp only
  cases hfind : List.find? (fun f => (file_lang f).isSome) r0.files
  all_goals simp [hfind]
  all_goals repeat' split
  all_goals rfl

theorem postpass_compiler (c : String) (r0 : OptionParserResult) :
    (postpass c r0).compiler = some c := by
  unfold postpass
  dsimp only
  cases hfind : List.find? (fun f => (file_lang f).isSome) r0.files
  all_goals simp [hfind]
  all_goals repeat' split
  all_goals rfl

theorem postpass_action (c : String) (r0 : OptionParserResult) :
    (postpass c r0).action =
      if (r0.files.find? fun f => (file_lang f).isSome).isSome then r0.action
      else ActionType.LINK := by
  unfold postpass
  dsimp only
  cases hfind : List.find? (fun f => (file_lang f).isSome) r0.files
  all_goals simp [hfind]
  all_goals repeat' split
  all_goals rfl

theorem postpass_lang_pp (c : String) (r0 : OptionParserResult)
    (h : has_pp c.data = true) : (postpass c r0).lang = some "c++" := by
  unfold postpass
  dsimp only
  rw [h]
  cases hfind : List.find? (fun f => (file_lang f).isSome) r0.files <;> simp [hfind]

theorem arg_check_bare {fs : FileSystem} {t : String} {rest : List String}
    {r : OptionParserResult} (hf : files_fallback_match t = true)
    (hlit : streq t "^-(E|M[T|Q|F|J|P|V|M]*)$" = false) :
    arg_check fs t rest r = .ok ({ r with files := r.files ++ [t] }, 0) := by
  obtain ⟨c, d, l, ht, hc, hd⟩ :
      ∃ c d l, t.data = c :: d :: l ∧ ¬(c = '-') ∧ ¬(d = '\n') := by
    unfold files_fallback_match at hf
    split at hf
    · next c d l heq =>
      refine ⟨c, d, l, heq, ?_, ?_⟩ <;> (intro hcc; simp [hcc] at hf)
    · cases hf
  have hc' : ¬('-' = c) := fun hh => hc hh.symm
  by_cases hch : c = '^'
  · subst hch
    by_cases hdh : d = '-'
    · subst hdh
      have hdl : ("^-(E|M[T|Q|F|J|P|V|M]*)$" : String).data =
          '^' :: '-' :: '(' :: 'E' :: '|' :: 'M' :: '[' :: 'T' :: '|' :: 'Q' :: '|' ::
          'F' :: '|' :: 'J' :: '|' :: 'P' :: '|' :: 'V' :: '|' :: 'M' :: ']' :: '*' ::
          ')' :: '$' :: [] := rfl
      have h3 : leq l ['(', 'E', '|', 'M', '[', 'T', '|', 'Q', '|', 'F', '|', 'J',
          '|', 'P', '|', 'V', '|', 'M', ']', '*', ')', '$'] = false := by
        have hx := hlit
        rw [streq, ht, hdl] at hx
        simpa [leq] using hx
      simp [arg_check, arg_collection, dispatch, rule_replace, rule_unknown, rule_ignored,
      rule_ignored_regex, rule_lang, rule_output, rule_arch, rule_action_compile,
      rule_action_preproc, rule_action_info, rule_compile_exact, rule_compiler_linker,
      rule_linker_regex, rule_compile_regex, rule_compile_merged, rule_link_merged,
      rule_linker_exact, rule_filelist, rule_files, lookupS, streq, leq, lcp, sw, dollar_end, dstar_ok, dstar_group, dollar_eq,
      dollar_sw, class_star_dollar,
      unknown_options_match, ignored_options_regex_match, preproc_match,
      compile_options_regex_match, linker_options_regex_match, mergedMatch,
      files_fallback_match, hasChar, COMPILE_OPTION_MAP, REPLACE_OPTIONS_MAP,
      IGNORED_OPTION_MAP, COMPILER_LINKER_OPTION_MAP, LINKER_OPTION_MAP,
      COMPILE_OPTION_MAP_MERGED, LINK_OPTION_MAP_MERGED, PRE_CLASS, ht, hc, hc', hd, h3]
    · simp [arg_check, arg_collection, dispatch, rule_replace, rule_unknown, rule_ignored,
      rule_ignored_regex, rule_lang, rule_output, rule_arch, rule_action_compile,
      rule_action_preproc, rule_action_info, rule_compile_exact, rule_compiler_linker,
      rule_linker_regex, rule_compile_regex, rule_compile_merged, rule_link_merged,
      rule_linker_exact, rule_filelist, rule_files, lookupS, streq, leq, lcp, sw, dollar_end, dstar_ok, dstar_group, dollar_eq,
      dollar_sw, class_star_dollar,
      unknown_options_match, ignored_options_regex_match, preproc_match,
      compile_options_regex_match, linker_options_regex_match, mergedMatch,
      files_fallback_match, hasChar, COMPILE_OPTION_MAP, REPLACE_OPTIONS_MAP,
      IGNORED_OPTION_MAP, COMPILER_LINKER_OPTION_MAP, LINKER_OPTION_MAP,
      COMPILE_OPTION_MAP_MERGED, LINK_OPTION_MAP_MERGED, PRE_CLASS, ht, hc, hc', hd, hdh]
  · simp [arg_check, arg_collection, dispatch, rule_replace, rule_unknown, rule_ignored,
      rule_ignored_regex, rule_lang, rule_output, rule_arch, rule_action_compile,
      rule_action_preproc, rule_action_info, rule_compile_exact, rule_compiler_linker,
      rule_linker_regex, rule_compile_regex, rule_compile_merged, rule_link_merged,
      rule_linker_exact, rule_filelist, rule_files, lookupS, streq, leq, lcp, sw, dollar_end, dstar_ok, dstar_group, dollar_eq,
      dollar_sw, class_star_dollar,
      unknown_options_match, ignored_options_regex_match, preproc_match,
      compile_options_regex_match, linker_options_regex_match, mergedMatch,
      files_fallback_match, hasChar, COMPILE_OPTION_MAP, REPLACE_OPTIONS_MAP,
      IGNORED_OPTION_MAP, COMPILER_LINKER_OPTION_MAP, LINKER_OPTION_MAP,
      COMPILE_OPTION_MAP_MERGED, LINK_OPTION_MAP_MERGED, PRE_CLASS, ht, hc, hc', hd, hch]

theorem parse_loop_bare {fs : FileSystem} :
    ∀ (fuel : Nat) (l : List String) (r : OptionParserResult),
    (∀ t ∈ l, files_fallback_match t = true) →
    (∀ t ∈ l, streq t "^-(E|M[T|Q|F|J|P|V|M]*)$" = false) → l.length ≤ fuel →
    parse_loop fs fuel l r = .ok { r with files := r.files ++ l } := by
  intro fuel
  induction fuel with
  | zero =>
    intro l r hl hl2 hlen
    cases l with
    | nil => simp [parse_loop]
    | cons t rest => simp at hlen
  | succ fuel ih =>
    intro l r hl hl2 hlen
    cases l with
    | nil => simp [parse_loop]
    | cons t rest =>
      rw [parse_loop, arg_check_bare (hl t (List.mem_cons_self t rest))
        (hl2 t (List.mem_cons_self t rest))]
      dsimp only
      rw [List.drop_zero]
      rw [ih rest _ (fun u hu => hl u (List.mem_cons_of_mem t hu))
        (fun u hu => hl2 u (List.mem_cons_of_mem t hu))
        (by simpa using Nat.le_of_succ_le_succ (by simpa using hlen))]
      simp

/- The merged-prefix handler on the idempotent prefixes: the adjacent and
the spaced supply of the value fire the same way. -/

theorem hasChar_append (c : Char) (l1 l2 : List Char) :
    hasChar c (l1 ++ l2) = (hasChar c l1 || hasChar c l2) := by
  induction l1 with
  | nil => simp [hasChar]
  | cons a l1 ih =>
    simp only [List.cons_append, hasChar, ih]
    split <;> simp [ih]

theorem requote_eq_self {s : String} (h : hasChar '"' s.data = false) :
    requote s = s := by
  simp [requote, h]

theorem arg_check_merged_adjacent {fs : FileSystem} {p v : String}
    {rest : List String} {r : OptionParserResult}
    (hp : p ∈ MERGED_IDEMPOTENT_PREFIXES) (hv : v ≠ "")
    (hnd : p ++ v ≠ "-DNDEBUG") (hnl : hasChar '\n' v.data = false) :
    arg_check fs (p ++ v) rest r =
      .ok ({ r with compile_opts := r.compile_opts ++ [p ++ v] }, 0) := by
  have hvd : v.data ≠ [] := by
    intro hcon; apply hv; cases v; simp_all
  have hmg : dstar_group v.data = some v.data := dstar_group_total hnl
  fin_cases hp
  · have hd : ("-iquote" ++ v).data = '-' :: 'i' :: 'q' :: 'u' :: 'o' :: 't' :: 'e' :: v.data := by
      rw [String.data_append]; rfl
    simp [arg_check, arg_collection, dispatch, rule_replace, rule_unknown, rule_ignored,
      rule_ignored_regex, rule_lang, rule_output, rule_arch, rule_action_compile,
      rule_action_preproc, rule_action_info, rule_compile_exact, rule_compiler_linker,
      rule_linker_regex, rule_compile_regex, rule_compile_merged, rule_link_merged,
      rule_linker_exact, rule_filelist, rule_files, lookupS, streq, leq, lcp, sw, dollar_end, dstar_ok, dstar_group, dollar_eq,
      dollar_sw, class_star_dollar,
      unknown_options_match, ignored_options_regex_match, preproc_match,
      compile_options_regex_match, linker_options_regex_match, mergedMatch,
      files_fallback_match, hasChar, COMPILE_OPTION_MAP, REPLACE_OPTIONS_MAP,
      IGNORED_OPTION_MAP, COMPILER_LINKER_OPTION_MAP, LINKER_OPTION_MAP,
      COMPILE_OPTION_MAP_MERGED, LINK_OPTION_MAP_MERGED, PRE_CLASS, hd, hvd, hmg]
  · have hd : ("-D" ++ v).data = '-' :: 'D' :: v.data := by
      rw [String.data_append]; rfl
    have hnd2 : leq v.data ['N', 'D', 'E', 'B', 'U', 'G'] = false := by
      cases hq : leq v.data ['N', 'D', 'E', 'B', 'U', 'G'] with
      | false => rfl
      | true =>
        exfalso; apply hnd
        have hvq := (leq_iff _ _).mp hq
        cases v; simp_all
    have hnd3 : leq v.data ['N', 'D', 'E', 'B', 'U', 'G', '\n'] = false := by
      cases hq : leq v.data ['N', 'D', 'E', 'B', 'U', 'G', '\n'] with
      | false => rfl
      | true =>
        exfalso
        rw [(leq_iff _ _).mp hq] at hnl
        simp [hasChar] at hnl
    simp [arg_check, arg_collection, dispatch, rule_replace, rule_unknown, rule_ignored,
      rule_ignored_regex, rule_lang, rule_output, rule_arch, rule_action_compile,
      rule_action_preproc, rule_action_info, rule_compile_exact, rule_compiler_linker,
      rule_linker_regex, rule_compile_regex, rule_compile_merged, rule_link_merged,
      rule_linker_exact, rule_filelist, rule_files, lookupS, streq, leq, lcp, sw, dollar_end, dstar_ok, dstar_group, dollar_eq,
      dollar_sw, class_star_dollar,
      unknown_options_match, ignored_options_regex_match, preproc_match,
      compile_options_regex_match, linker_options_regex_match, mergedMatch,
      files_fallback_match, hasChar, COMPILE_OPTION_MAP, REPLACE_OPTIONS_MAP,
      IGNORED_OPTION_MAP, COMPILER_LINKER_OPTION_MAP, LINKER_OPTION_MAP,
      COMPILE_OPTION_MAP_MERGED, LINK_OPTION_MAP_MERGED, PRE_CLASS, hd, hvd, hmg, hnd2, hnd3]
  · have hd : ("-I" ++ v).data = '-' :: 'I' :: v.data := by
      rw [String.data_append]; rfl
    simp [arg_check, arg_collection, dispatch, rule_replace, rule_unknown, rule_ignored,
      rule_ignored_regex, rule_lang, rule_output, rule_arch, rule_action_compile,
      rule_action_preproc, rule_action_info, rule_compile_exact, rule_compiler_linker,
      rule_linker_regex, rule_compile_regex, rule_compile_merged, rule_link_merged,
      rule_linker_exact, rule_filelist, rule_files, lookupS, streq, leq, lcp, sw, dollar_end, dstar_ok, dstar_group, dollar_eq,
      dollar_sw, class_star_dollar,
      unknown_options_match, ignored_options_regex_match, preproc_match,
      compile_options_regex_match, linker_options_regex_match, mergedMatch,
      files_fallback_match, hasChar, COMPILE_OPTION_MAP, REPLACE_OPTIONS_MAP,
      IGNORED_OPTION_MAP, COMPILER_LINKER_OPTION_MAP, LINKER_OPTION_MAP,
      COMPILE_OPTION_MAP_MERGED, LINK_OPTION_MAP_MERGED, PRE_CLASS, hd, hvd, hmg]
  · have hd : ("-U" ++ v).data = '-' :: 'U' :: v.data := by
      rw [String.data_append]; rfl
    simp [arg_check, arg_collection, dispatch, rule_replace, rule_unknown, rule_ignored,
      rule_ignored_regex, rule_lang, rule_output, rule_arch, rule_action_compile,
      rule_action_preproc, rule_action_info, rule_compile_exact, rule_compiler_linker,
      rule_linker_regex, rule_compile_regex, rule_compile_merged, rule_link_merged,
      rule_linker_exact, rule_filelist, rule_files, lookupS, streq, leq, lcp, sw, dollar_end, dstar_ok, dstar_group, dollar_eq,
      dollar_sw, class_star_dollar,
      unknown_options_match, ignored_options_regex_match, preproc_match,
      compile_options_regex_match, linker_options_regex_match, mergedMatch,
      files_fallback_match, hasChar, COMPILE_OPTION_MAP, REPLACE_OPTIONS_MAP,
      IGNORED_OPTION_MAP, COMPILER_LINKER_OPTION_MAP, LINKER_OPTION_MAP,
      COMPILE_OPTION_MAP_MERGED, LINK_OPTION_MAP_MERGED, PRE_CLASS, hd, hvd, hmg]
  · have hd : ("-idirafter" ++ v).data = '-' :: 'i' :: 'd' :: 'i' :: 'r' :: 'a' :: 'f' :: 't' :: 'e' :: 'r' :: v.data := by
      rw [String.data_append]; rfl
    simp [arg_check, arg_collection, dispatch, rule_replace, rule_unknown, rule_ignored,
      rule_ignored_regex, rule_lang, rule_output, rule_arch, rule_action_compile,
      rule_action_preproc, rule_action_info, rule_compile_exact, rule_compiler_linker,
      rule_linker_regex, rule_compile_regex, rule_compile_merged, rule_link_merged,
      rule_linker_exact, rule_filelist, rule_files, lookupS, streq, leq, lcp, sw, dollar_end, dstar_ok, dstar_group, dollar_eq,
      dollar_sw, class_star_dollar,
      unknown_options_match, ignored_options_regex_match, preproc_match,
      compile_options_regex_match, linker_options_regex_match, mergedMatch,
      files_fallback_match, hasChar, COMPILE_OPTION_MAP, REPLACE_OPTIONS_MAP,
      IGNORED_OPTION_MAP, COMPILER_LINKER_OPTION_MAP, LINKER_OPTION_MAP,
      COMPILE_OPTION_MAP_MERGED, LINK_OPTION_MAP_MERGED, PRE_CLASS, hd, hvd, hmg]
  · have hd : ("-isystem" ++ v).data = '-' :: 'i' :: 's' :: 'y' :: 's' :: 't' :: 'e' :: 'm' :: v.data := by
      rw [String.data_append]; rfl
    simp [arg_check, arg_collection, dispatch, rule_replace, rule_unknown, rule_ignored,
      rule_ignored_regex, rule_lang, rule_output, rule_arch, rule_action_compile,
      rule_action_preproc, rule_action_info, rule_compile_exact, rule_compiler_linker,
      rule_linker_regex, rule_compile_regex, rule_compile_merged, rule_link_merged,
      rule_linker_exact, rule_filelist, rule_files, lookupS, streq, leq, lcp, sw, dollar_end, dstar_ok, dstar_group, dollar_eq,
      dollar_sw, class_star_dollar,
      unknown_options_match, ignored_options_regex_match, preproc_match,
      compile_options_regex_match, linker_options_regex_match, mergedMatch,
      files_fallback_match, hasChar, COMPILE_OPTION_MAP, REPLACE_OPTIONS_MAP,
      IGNORED_OPTION_MAP, COMPILER_LINKER_OPTION_MAP, LINKER_OPTION_MAP,
      COMPILE_OPTION_MAP_MERGED, LINK_OPTION_MAP_MERGED, PRE_CLASS, hd, hvd, hmg]
  · have hd : ("-imacros" ++ v).data = '-' :: 'i' :: 'm' :: 'a' :: 'c' :: 'r' :: 'o' :: 's' :: v.data := by
      rw [String.data_append]; rfl
    simp [arg_check, arg_collection, dispatch, rule_replace, rule_unknown, rule_ignored,
      rule_ignored_regex, rule_lang, rule_output, rule_arch, rule_action_compile,
      rule_action_preproc, rule_action_info, rule_compile_exact, rule_compiler_linker,
      rule_linker_regex, rule_compile_regex, rule_compile_merged, rule_link_merged,
      rule_linker_exact, rule_filelist, rule_files, lookupS, streq, leq, lcp, sw, dollar_end, dstar_ok, dstar_group, dollar_eq,
      dollar_sw, class_star_dollar,
      unknown_options_match, ignored_options_regex_match, preproc_match,
      compile_options_regex_match, linker_options_regex_match, mergedMatch,
      files_fallback_match, hasChar, COMPILE_OPTION_MAP, REPLACE_OPTIONS_MAP,
      IGNORED_OPTION_MAP, COMPILER_LINKER_OPTION_MAP, LINKER_OPTION_MAP,
      COMPILE_OPTION_MAP_MERGED, LINK_OPTION_MAP_MERGED, PRE_CLASS, hd, hvd, hmg]
  · have hd : ("-include" ++ v).data = '-' :: 'i' :: 'n' :: 'c' :: 'l' :: 'u' :: 'd' :: 'e' :: v.data := by
      rw [String.data_append]; rfl
    simp [arg_check, arg_collection, dispatch, rule_replace, rule_unknown, rule_ignored,
      rule_ignored_regex, rule_lang, rule_output, rule_arch, rule_action_compile,
      rule_action_preproc, rule_action_info, rule_compile_exact, rule_compiler_linker,
      rule_linker_regex, rule_compile_regex, rule_compile_merged, rule_link_merged,
      rule_linker_exact, rule_filelist, rule_files, lookupS, streq, leq, lcp, sw, dollar_end, dstar_ok, dstar_group, dollar_eq,
      dollar_sw, class_star_dollar,
      unknown_options_match, ignored_options_regex_match, preproc_match,
      compile_options_regex_match, linker_options_regex_match, mergedMatch,
      files_fallback_match, hasChar, COMPILE_OPTION_MAP, REPLACE_OPTIONS_MAP,
      IGNORED_OPTION_MAP, COMPILER_LINKER_OPTION_MAP, LINKER_OPTION_MAP,
      COMPILE_OPTION_MAP_MERGED, LINK_OPTION_MAP_MERGED, PRE_CLASS, hd, hvd, hmg]
  · have hd : ("-isysroot" ++ v).data = '-' :: 'i' :: 's' :: 'y' :: 's' :: 'r' :: 'o' :: 'o' :: 't' :: v.data := by
      rw [String.data_append]; rfl
    simp [arg_check, arg_collection, dispatch, rule_replace, rule_unknown, rule_ignored,
      rule_ignored_regex, rule_lang, rule_output, rule_arch, rule_action_compile,
      rule_action_preproc, rule_action_info, rule_compile_exact, rule_compiler_linker,
      rule_linker_regex, rule_compile_regex, rule_compile_merged, rule_link_merged,
      rule_linker_exact, rule_filelist, rule_files, lookupS, streq, leq, lcp, sw, dollar_end, dstar_ok, dstar_group, dollar_eq,
      dollar_sw, class_star_dollar,
      unknown_options_match, ignored_options_regex_match, preproc_match,
      compile_options_regex_match, linker_options_regex_match, mergedMatch,
      files_fallback_match, hasChar, COMPILE_OPTION_MAP, REPLACE_OPTIONS_MAP,
      IGNORED_OPTION_MAP, COMPILER_LINKER_OPTION_MAP, LINKER_OPTION_MAP,
      COMPILE_OPTION_MAP_MERGED, LINK_OPTION_MAP_MERGED, PRE_CLASS, hd, hvd, hmg]
  · have hd : ("-iprefix" ++ v).data = '-' :: 'i' :: 'p' :: 'r' :: 'e' :: 'f' :: 'i' :: 'x' :: v.data := by
      rw [String.data_append]; rfl
    simp [arg_check, arg_collection, dispatch, rule_replace, rule_unknown, rule_ignored,
      rule_ignored_regex, rule_lang, rule_output, rule_arch, rule_action_compile,
      rule_action_preproc, rule_action_info, rule_compile_exact, rule_compiler_linker,
      rule_linker_regex, rule_compile_regex, rule_compile_merged, rule_link_merged,
      rule_linker_exact, rule_filelist, rule_files, lookupS, streq, leq, lcp, sw, dollar_end, dstar_ok, dstar_group, dollar_eq,
      dollar_sw, class_star_dollar,
      unknown_options_match, ignored_options_regex_match, preproc_match,
      compile_options_regex_match, linker_options_regex_match, mergedMatch,
      files_fallback_match, hasChar, COMPILE_OPTION_MAP, REPLACE_OPTIONS_MAP,
      IGNORED_OPTION_MAP, COMPILER_LINKER_OPTION_MAP, LINKER_OPTION_MAP,
      COMPILE_OPTION_MAP_MERGED, LINK_OPTION_MAP_MERGED, PRE_CLASS, hd, hvd, hmg]
  · have hd : ("-iwithprefix" ++ v).data = '-' :: 'i' :: 'w' :: 'i' :: 't' :: 'h' :: 'p' :: 'r' :: 'e' :: 'f' :: 'i' :: 'x' :: v.data := by
      rw [String.data_append]; rfl
    simp [arg_check, arg_collection, dispatch, rule_replace, rule_unknown, rule_ignored,
      rule_ignored_regex, rule_lang, rule_output, rule_arch, rule_action_compile,
      rule_action_preproc, rule_action_info, rule_compile_exact, rule_compiler_linker,
      rule_linker_regex, rule_compile_regex, rule_compile_merged, rule_link_merged,
      rule_linker_exact, rule_filelist, rule_files, lookupS, streq, leq, lcp, sw, dollar_end, dstar_ok, dstar_group, dollar_eq,
      dollar_sw, class_star_dollar,
      unknown_options_match, ignored_options_regex_match, preproc_match,
      compile_options_regex_match, linker_options_regex_match, mergedMatch,
      files_fallback_match, hasChar, COMPILE_OPTION_MAP, REPLACE_OPTIONS_MAP,
      IGNORED_OPTION_MAP, COMPILER_LINKER_OPTION_MAP, LINKER_OPTION_MAP,
      COMPILE_OPTION_MAP_MERGED, LINK_OPTION_MAP_MERGED, PRE_CLASS, hd, hvd, hmg]

theorem arg_check_merged_spaced {fs : FileSystem} {p a : String}
    {rest : List String} {r : OptionParserResult}
    (hp : p ∈ MERGED_IDEMPOTENT_PREFIXES) :
    arg_check fs p (a :: rest) r =
      .ok ({ r with compile_opts := r.compile_opts ++ [p ++ a] }, 1) := by
  fin_cases hp
  · simp [arg_check, arg_collection, dispatch, rule_replace, rule_unknown, rule_ignored,
      rule_ignored_regex, rule_lang, rule_output, rule_arch, rule_action_compile,
      rule_action_preproc, rule_action_info, rule_compile_exact, rule_compiler_linker,
      rule_linker_regex, rule_compile_regex, rule_compile_merged, rule_link_merged,
      rule_linker_exact, rule_filelist, rule_files, lookupS, streq, leq, lcp, sw, dollar_end, dstar_ok, dstar_group, dollar_eq,
      dollar_sw, class_star_dollar,
      unknown_options_match, ignored_options_regex_match, preproc_match,
      compile_options_regex_match, linker_options_regex_match, mergedMatch,
      files_fallback_match, hasChar, COMPILE_OPTION_MAP, REPLACE_OPTIONS_MAP,
      IGNORED_OPTION_MAP, COMPILER_LINKER_OPTION_MAP, LINKER_OPTION_MAP,
      COMPILE_OPTION_MAP_MERGED, LINK_OPTION_MAP_MERGED, PRE_CLASS]
  · simp [arg_check, arg_collection, dispatch, rule_replace, rule_unknown, rule_ignored,
      rule_ignored_regex, rule_lang, rule_output, rule_arch, rule_action_compile,
      rule_action_preproc, rule_action_info, rule_compile_exact, rule_compiler_linker,
      rule_linker_regex, rule_compile_regex, rule_compile_merged, rule_link_merged,
      rule_linker_exact, rule_filelist, rule_files, lookupS, streq, leq, lcp, sw, dollar_end, dstar_ok, dstar_group, dollar_eq,
      dollar_sw, class_star_dollar,
      unknown_options_match, ignored_options_regex_match, preproc_match,
      compile_options_regex_match, linker_options_regex_match, mergedMatch,
      files_fallback_match, hasChar, COMPILE_OPTION_MAP, REPLACE_OPTIONS_MAP,
      IGNORED_OPTION_MAP, COMPILER_LINKER_OPTION_MAP, LINKER_OPTION_MAP,
      COMPILE_OPTION_MAP_MERGED, LINK_OPTION_MAP_MERGED, PRE_CLASS]
  · simp [arg_check, arg_collection, dispatch, rule_replace, rule_unknown, rule_ignored,
      rule_ignored_regex, rule_lang, rule_output, rule_arch, rule_action_compile,
      rule_action_preproc, rule_action_info, rule_compile_exact, rule_compiler_linker,
      rule_linker_regex, rule_compile_regex, rule_compile_merged, rule_link_merged,
      rule_linker_exact, rule_filelist, rule_files, lookupS, streq, leq, lcp, sw, dollar_end, dstar_ok, dstar_group, dollar_eq,
      dollar_sw, class_star_dollar,
      unknown_options_match, ignored_options_regex_match, preproc_match,
      compile_options_regex_match, linker_options_regex_match, mergedMatch,
      files_fallback_match, hasChar, COMPILE_OPTION_MAP, REPLACE_OPTIONS_MAP,
      IGNORED_OPTION_MAP, COMPILER_LINKER_OPTION_MAP, LINKER_OPTION_MAP,
      COMPILE_OPTION_MAP_MERGED, LINK_OPTION_MAP_MERGED, PRE_CLASS]
  · simp [arg_check, arg_collection, dispatch, rule_replace, rule_unknown, rule_ignored,
      rule_ignored_regex, rule_lang, rule_output, rule_arch, rule_action_compile,
      rule_action_preproc, rule_action_info, rule_compile_exact, rule_compiler_linker,
      rule_linker_regex, rule_compile_regex, rule_compile_merged, rule_link_merged,
      rule_linker_exact, rule_filelist, rule_files, lookupS, streq, leq, lcp, sw, dollar_end, dstar_ok, dstar_group, dollar_eq,
      dollar_sw, class_star_dollar,
      unknown_options_match, ignored_options_regex_match, preproc_match,
      compile_options_regex_match, linker_options_regex_match, mergedMatch,
      files_fallback_match, hasChar, COMPILE_OPTION_MAP, REPLACE_OPTIONS_MAP,
      IGNORED_OPTION_MAP, COMPILER_LINKER_OPTION_MAP, LINKER_OPTION_MAP,
      COMPILE_OPTION_MAP_MERGED, LINK_OPTION_MAP_MERGED, PRE_CLASS]
  · simp [arg_check, arg_collection, dispatch, rule_replace, rule_unknown, rule_ignored,
      rule_ignored_regex, rule_lang, rule_output, rule_arch, rule_action_compile,
      rule_action_preproc, rule_action_info, rule_compile_exact, rule_compiler_linker,
      rule_linker_regex, rule_compile_regex, rule_compile_merged, rule_link_merged,
      rule_linker_exact, rule_filelist, rule_files, lookupS, streq, leq, lcp, sw, dollar_end, dstar_ok, dstar_group, dollar_eq,
      dollar_sw, class_star_dollar,
      unknown_options_match, ignored_options_regex_match, preproc_match,
      compile_options_regex_match, linker_options_regex_match, mergedMatch,
      files_fallback_match, hasChar, COMPILE_OPTION_MAP, REPLACE_OPTIONS_MAP,
      IGNORED_OPTION_MAP, COMPILER_LINKER_OPTION_MAP, LINKER_OPTION_MAP,
      COMPILE_OPTION_MAP_MERGED, LINK_OPTION_MAP_MERGED, PRE_CLASS]
  · simp [arg_check, arg_collection, dispatch, rule_replace, rule_unknown, rule_ignored,
      rule_ignored_regex, rule_lang, rule_output, rule_arch, rule_action_compile,
      rule_action_preproc, rule_action_info, rule_compile_exact, rule_compiler_linker,
      rule_linker_regex, rule_compile_regex, rule_compile_merged, rule_link_merged,
      rule_linker_exact, rule_filelist, rule_files, lookupS, streq, leq, lcp, sw, dollar_end, dstar_ok, dstar_group, dollar_eq,
      dollar_sw, class_star_dollar,
      unknown_options_match, ignored_options_regex_match, preproc_match,
      compile_options_regex_match, linker_options_regex_match, mergedMatch,
      files_fallback_match, hasChar, COMPILE_OPTION_MAP, REPLACE_OPTIONS_MAP,
      IGNORED_OPTION_MAP, COMPILER_LINKER_OPTION_MAP, LINKER_OPTION_MAP,
      COMPILE_OPTION_MAP_MERGED, LINK_OPTION_MAP_MERGED, PRE_CLASS]
  · simp [arg_check, arg_collection, dispatch, rule_replace, rule_unknown, rule_ignored,
      rule_ignored_regex, rule_lang, rule_output, rule_arch, rule_action_compile,
      rule_action_preproc, rule_action_info, rule_compile_exact, rule_compiler_linker,
      rule_linker_regex, rule_compile_regex, rule_compile_merged, rule_link_merged,
      rule_linker_exact, rule_filelist, rule_files, lookupS, streq, leq, lcp, sw, dollar_end, dstar_ok, dstar_group, dollar_eq,
      dollar_sw, class_star_dollar,
      unknown_options_match, ignored_options_regex_match, preproc_match,
      compile_options_regex_match, linker_options_regex_match, mergedMatch,
      files_fallback_match, hasChar, COMPILE_OPTION_MAP, REPLACE_OPTIONS_MAP,
      IGNORED_OPTION_MAP, COMPILER_LINKER_OPTION_MAP, LINKER_OPTION_MAP,
      COMPILE_OPTION_MAP_MERGED, LINK_OPTION_MAP_MERGED, PRE_CLASS]
  · simp [arg_check, arg_collection, dispatch, rule_replace, rule_unknown, rule_ignored,
      rule_ignored_regex, rule_lang, rule_output, rule_arch, rule_action_compile,
      rule_action_preproc, rule_action_info, rule_compile_exact, rule_compiler_linker,
      rule_linker_regex, rule_compile_regex, rule_compile_merged, rule_link_merged,
      rule_linker_exact, rule_filelist, rule_files, lookupS, streq, leq, lcp, sw, dollar_end, dstar_ok, dstar_group, dollar_eq,
      dollar_sw, class_star_dollar,
      unknown_options_match, ignored_options_regex_match, preproc_match,
      compile_options_regex_match, linker_options_regex_match, mergedMatch,
      files_fallback_match, hasChar, COMPILE_OPTION_MAP, REPLACE_OPTIONS_MAP,
      IGNORED_OPTION_MAP, COMPILER_LINKER_OPTION_MAP, LINKER_OPTION_MAP,
      COMPILE_OPTION_MAP_MERGED, LINK_OPTION_MAP_MERGED, PRE_CLASS]
  · simp [arg_check, arg_collection, dispatch, rule_replace, rule_unknown, rule_ignored,
      rule_ignored_regex, rule_lang, rule_output, rule_arch, rule_action_compile,
      rule_action_preproc, rule_action_info, rule_compile_exact, rule_compiler_linker,
      rule_linker_regex, rule_compile_regex, rule_compile_merged, rule_link_merged,
      rule_linker_exact, rule_filelist, rule_files, lookupS, streq, leq, lcp, sw, dollar_end, dstar_ok, dstar_group, dollar_eq,
      dollar_sw, class_star_dollar,
      unknown_options_match, ignored_options_regex_match, preproc_match,
      compile_options_regex_match, linker_options_regex_match, mergedMatch,
      files_fallback_match, hasChar, COMPILE_OPTION_MAP, REPLACE_OPTIONS_MAP,
      IGNORED_OPTION_MAP, COMPILER_LINKER_OPTION_MAP, LINKER_OPTION_MAP,
      COMPILE_OPTION_MAP_MERGED, LINK_OPTION_MAP_MERGED, PRE_CLASS]
  · simp [arg_check, arg_collection, dispatch, rule_replace, rule_unknown, rule_ignored,
      rule_ignored_regex, rule_lang, rule_output, rule_arch, rule_action_compile,
      rule_action_preproc, rule_action_info, rule_compile_exact, rule_compiler_linker,
      rule_linker_regex, rule_compile_regex, rule_compile_merged, rule_link_merged,
      rule_linker_exact, rule_filelist, rule_files, lookupS, streq, leq, lcp, sw, dollar_end, dstar_ok, dstar_group, dollar_eq,
      dollar_sw, class_star_dollar,
      unknown_options_match, ignored_options_regex_match, preproc_match,
      compile_options_regex_match, linker_options_regex_match, mergedMatch,
      files_fallback_match, hasChar, COMPILE_OPTION_MAP, REPLACE_OPTIONS_MAP,
      IGNORED_OPTION_MAP, COMPILER_LINKER_OPTION_MAP, LINKER_OPTION_MAP,
      COMPILE_OPTION_MAP_MERGED, LINK_OPTION_MAP_MERGED, PRE_CLASS]
  · simp [arg_check, arg_collection, dispatch, rule_replace, rule_unknown, rule_ignored,
      rule_ignored_regex, rule_lang, rule_output, rule_arch, rule_action_compile,
      rule_action_preproc, rule_action_info, rule_compile_exact, rule_compiler_linker,
      rule_linker_regex, rule_compile_regex, rule_compile_merged, rule_link_merged,
      rule_linker_exact, rule_filelist, rule_files, lookupS, streq, leq, lcp, sw, dollar_end, dstar_ok, dstar_group, dollar_eq,
      dollar_sw, class_star_dollar,
      unknown_options_match, ignored_options_regex_match, preproc_match,
      compile_options_regex_match, linker_options_regex_match, mergedMatch,
      files_fallback_match, hasChar, COMPILE_OPTION_MAP, REPLACE_OPTIONS_MAP,
      IGNORED_OPTION_MAP, COMPILER_LINKER_OPTION_MAP, LINKER_OPTION_MAP,
      COMPILE_OPTION_MAP_MERGED, LINK_OPTION_MAP_MERGED, PRE_CLASS]

/- The claims. -/

theorem merged_prefixes_no_quote :
    ∀ p ∈ MERGED_IDEMPOTENT_PREFIXES, hasChar '"' p.data = false := by decide

/-- C1: the replacement handler does not behave as claimed: after appending
the replacement sequence for a matched key it advances the cursor once more,
silently discarding the very next token.  On gcc -mips32 -o out.o x.c the
token -o is consumed and dropped, out.o becomes an input file and output is
never set; with the key as last token the call aborts. -/
theorem C1_replacement_consumes_extra :
    parse_options fsNone "gcc" ["-mips32", "-o", "out.o", "x.c"] =
      .ok { action := ActionType.COMPILE,
            compile_opts := ["-target", "mips", "-mips32"],
            files := ["out.o", "x.c"], lang := some "c", compiler := some "gcc" } ∧
    arg_check fsNone "-mips32" ["-o", "out.o", "x.c"] init_result =
      .ok ({ init_result with compile_opts := ["-target", "mips", "-mips32"] }, 1) ∧
    parse_options fsNone "gcc" ["x.c", "-mips32"] = .error ParseError.truncated := by
  refine ⟨by decide, by decide, by decide⟩

/-- C2 counterexample: the bare-file pattern needs at least two characters,
so the single-character bare token a is dropped, not recorded in files. -/
theorem C2_counterexample :
    (parse_options fsNone "gcc" ["a", "bb"]).map (fun r => r.files) ≠ .ok ["a", "bb"] ∧
    (parse_options fsNone "gcc" ["a", "bb"]).map (fun r => r.files) = .ok ["bb"] := by
  refine ⟨by decide, by decide⟩

/-- C2 (amended): every bare token accepted by the bare-file pattern (at
least two characters, not starting with a dash, second character not a
newline) and not equal to the literal text of the preprocessor pattern
(which the attribute-setting handler accepts verbatim) is appended to files
when it is the current token, and an invocation made only of such tokens
returns them all, in original order, as the files list.  A single-character
bare token matches no rule and is dropped. -/
theorem C2_bare_files :
    (∀ (fs : FileSystem) (t : String) (rest : List String) (r : OptionParserResult),
      files_fallback_match t = true → streq t "^-(E|M[T|Q|F|J|P|V|M]*)$" = false →
      arg_check fs t rest r = .ok ({ r with files := r.files ++ [t] }, 0)) ∧
    (∀ (fs : FileSystem) (c : String) (args : List String),
      (∀ t ∈ args, files_fallback_match t = true) →
      (∀ t ∈ args, streq t "^-(E|M[T|Q|F|J|P|V|M]*)$" = false) →
      ∃ r, parse_options fs c args = .ok r ∧ r.files = args) := by
  constructor
  · exact fun fs t rest r h h2 => arg_check_bare h h2
  · intro fs c args h h2
    unfold parse_options
    rw [parse_loop_bare args.length args init_result h h2 (Nat.le_refl _)]
    exact ⟨_, rfl, by rw [postpass_files]; simp [init_result]⟩

/-- C2 witness: three bare tokens, one repeated, all appear in order. -/
theorem C2_bare_files_witness :
    (∀ t ∈ ["ab", "x.c", "ab"], files_fallback_match t = true) ∧
    (∀ t ∈ ["ab", "x.c", "ab"], streq t "^-(E|M[T|Q|F|J|P|V|M]*)$" = false) ∧
    ∃ r, parse_options fsNone "cc" ["ab", "x.c", "ab"] = .ok r ∧
      r.files = ["ab", "x.c", "ab"] :=
  ⟨by decide, by decide,
    C2_bare_files.2 fsNone "cc" ["ab", "x.c", "ab"] (by decide) (by decide)⟩

/-- C3 counterexample: -F is a merged-prefix compile option (pattern -F with
a required nonempty suffix), but supplied with a space the prefix alone
matches nothing, the value becomes an input file, and compileOpts of the two
invocations differ. -/
theorem C3_counterexample :
    (parse_options fsNone "gcc" ["-F", "/path"]).map (fun r => r.compile_opts) ≠
      .ok ["-F/path"] ∧
    (parse_options fsNone "gcc" ["-F", "/path"]).map (fun r => r.compile_opts) = .ok [] ∧
    (parse_options fsNone "gcc" ["-F/path"]).map (fun r => r.compile_opts) =
      .ok ["-F/path"] := by
  refine ⟨by decide, by decide, by decide⟩

/-- C3 (amended): for every merged-prefix compile option except -F (which
requires an adjacent nonempty suffix) and -iwithprefixbefore (which,
supplied alone, is captured by the earlier -iwithprefix pattern), and every
nonempty value whose joined form is not the literal -DNDEBUG (captured first
by the unknown-options table), which contains no double quote (which the
post-pass would re-escape) and no newline (which the dollar-anchored merged
pattern would reject, or strip into an empty captured group), the adjacent
and the spaced invocation return identical results and the single
compileOpts entry is the prefix concatenated directly with the value. -/
theorem C3_merge_idempotent (fs : FileSystem) (c p v : String)
    (hp : p ∈ MERGED_IDEMPOTENT_PREFIXES) (hv : v ≠ "")
    (hnd : p ++ v ≠ "-DNDEBUG") (hq : hasChar '"' v.data = false)
    (hnl : hasChar '\n' v.data = false) :
    parse_options fs c [p ++ v] = parse_options fs c [p, v] ∧
    (parse_options fs c [p, v]).map (fun r => r.compile_opts) = .ok [p ++ v] := by
  have hloop1 : parse_loop fs 1 [p ++ v] init_result =
      .ok { init_result with compile_opts := [p ++ v] } := by
    rw [parse_loop, arg_check_merged_adjacent hp hv hnd hnl]
    simp [parse_loop, init_result]
  have hloop2 : parse_loop fs 2 [p, v] init_result =
      .ok { init_result with compile_opts := [p ++ v] } := by
    rw [parse_loop, arg_check_merged_spaced hp]
    simp [parse_loop, init_result]
  have hq2 : hasChar '"' (p ++ v).data = false := by
    rw [String.data_append, hasChar_append, merged_prefixes_no_quote p hp, hq]
    rfl
  constructor
  · unfold parse_options
    simp only [List.length_cons, List.length_nil, List.length_singleton]
    rw [hloop1, hloop2]
  · unfold parse_options
    simp only [List.length_cons, List.length_nil, List.length_singleton]
    rw [hloop2]
    simp only [Except.map, postpass_compile_opts]
    simp [requote_eq_self hq2]

/-- C3 witness at the -I prefix with value /usr/include. -/
theorem C3_merge_idempotent_witness :
    "-I" ∈ MERGED_IDEMPOTENT_PREFIXES ∧ ("/usr/include" : String) ≠ "" ∧
    ("-I" ++ "/usr/include" : String) ≠ "-DNDEBUG" ∧
    hasChar '"' ("/usr/include" : String).data = false ∧
    hasChar '\n' ("/usr/include" : String).data = false ∧
    (parse_options fsNone "gcc" ["-I" ++ "/usr/include"] =
        parse_options fsNone "gcc" ["-I", "/usr/include"] ∧
      (parse_options fsNone "gcc" ["-I", "/usr/include"]).map (fun r => r.compile_opts) =
        .ok ["-I" ++ "/usr/include"]) :=
  ⟨by decide, by decide, by decide, by decide, by decide,
    C3_merge_idempotent fsNone "gcc" "-I" "/usr/include"
      (by decide) (by decide) (by decide) (by decide) (by decide)⟩

/-- C4: when no entry of files carries a recognised source extension the
returned action is LINK, whatever action flags were seen; when some entry is
recognised and the invocation holds no explicit compile, preprocessor or
info flag, the returned action is the default COMPILE. -/
theorem C4_action_finalization (fs : FileSystem) (c : String) (args : List String)
    (r : OptionParserResult) (h : parse_options fs c args = .ok r) :
    ((∀ f ∈ r.files, file_lang f = none) → r.action = ActionType.LINK) ∧
    ((∃ f ∈ r.files, (file_lang f).isSome) →
      (∀ t ∈ args, is_action_flag t = false) → r.action = ActionType.COMPILE) := by
  unfold parse_options at h
  cases hloop : parse_loop fs args.length args init_result with
  | error e => rw [hloop] at h; simp [Except.map] at h
  | ok r0 =>
    rw [hloop] at h
    simp only [Except.map] at h
    cases h
    constructor
    · intro hnone
      rw [postpass_files] at hnone
      have hfind : (r0.files.find? fun f => (file_lang f).isSome) = none := by
        apply List.find?_eq_none.mpr
        intro x hx
        simp [hnone x hx]
      rw [postpass_action, hfind]
      rfl
    · intro hsome hflags
      rw [postpass_files] at hsome
      have hfind : (r0.files.find? fun f => (file_lang f).isSome).isSome := by
        rw [List.find?_isSome]
        exact hsome
      rw [postpass_action, if_pos hfind]
      have h0 := parse_loop_action args.length args init_result r0 hflags hloop
      rw [h0]
      rfl

/-- C4 witness: gcc -c a.o has no recognised source so the explicit -c is
overridden to LINK, and gcc -lm x.c has a recognised source and no action
flag so the action stays COMPILE. -/
theorem C4_action_finalization_witness :
    (∃ r, parse_options fsNone "gcc" ["-c", "a.o"] = .ok r ∧
      (∀ f ∈ r.files, file_lang f = none) ∧ r.action = ActionType.LINK) ∧
    (∃ r, parse_options fsNone "gcc" ["-lm", "x.c"] = .ok r ∧
      (∃ f ∈ r.files, (file_lang f).isSome) ∧
      (∀ t ∈ ["-lm", "x.c"], is_action_flag t = false) ∧
      r.action = ActionType.COMPILE) := by
  have h1 : parse_options fsNone "gcc" ["-c", "a.o"] =
      .ok { action := ActionType.LINK, files := ["a.o"], compiler := some "gcc" } := by
    decide
  have h2 : parse_options fsNone "gcc" ["-lm", "x.c"] =
      .ok { action := ActionType.COMPILE, link_opts := ["-lm"], files := ["x.c"],
            lang := some "c", compiler := some "gcc" } := by
    decide
  constructor
  · exact ⟨_, h1, by decide,
      (C4_action_finalization fsNone "gcc" ["-c", "a.o"] _ h1).1 (by decide)⟩
  · exact ⟨_, h2, by decide, by decide,
      (C4_action_finalization fsNone "gcc" ["-lm", "x.c"] _ h2).2 (by decide) (by decide)⟩

/-- C5: the compiler field of a returned result is exactly the supplied
first token, and every other observable field is independent of that first
token: parsing the same arguments under any other compiler name succeeds
with the same compileOpts, linkOpts, files, output, arch and action. -/
theorem C5_compiler_first_token (fs : FileSystem) (c : String) (args : List String)
    (r : OptionParserResult) (h : parse_options fs c args = .ok r) :
    r.compiler = some c ∧
    ∀ c', ∃ r', parse_options fs c' args = .ok r' ∧
      r'.compile_opts = r.compile_opts ∧ r'.link_opts = r.link_opts ∧
      r'.files = r.files ∧ r'.output = r.output ∧ r'.arch = r.arch ∧
      r'.action = r.action := by
  unfold parse_options at h ⊢
  cases hloop : parse_loop fs args.length args init_result with
  | error e => rw [hloop] at h; simp [Except.map] at h
  | ok r0 =>
    rw [hloop] at h
    simp only [Except.map] at h
    cases h
    refine ⟨postpass_compiler c r0, ?_⟩
    intro c'
    refine ⟨postpass c' r0, rfl, ?_, ?_, ?_, ?_, ?_, ?_⟩
    · rw [postpass_compile_opts, postpass_compile_opts]
    · rw [postpass_link_opts, postpass_link_opts]
    · rw [postpass_files, postpass_files]
    · rw [postpass_output, postpass_output]
    · rw [postpass_arch, postpass_arch]
    · rw [postpass_action, postpass_action]

/-- C5 witness at gcc -c x.c, compared with clang. -/
theorem C5_compiler_first_token_witness :
    ∃ r, parse_options fsNone "gcc" ["-c", "x.c"] = .ok r ∧
      r.compiler = some "gcc" ∧
      ∃ r', parse_options fsNone "clang" ["-c", "x.c"] = .ok r' ∧
        r'.compile_opts = r.compile_opts ∧ r'.link_opts = r.link_opts ∧
        r'.files = r.files ∧ r'.output = r.output ∧ r'.arch = r.arch ∧
        r'.action = r.action := by
  have h : parse_options fsNone "gcc" ["-c", "x.c"] =
      .ok { action := ActionType.COMPILE, files := ["x.c"], lang := some "c",
            compiler := some "gcc" } := by
    decide
  obtain ⟨h1, h2⟩ := C5_compiler_first_token fsNone "gcc" ["-c", "x.c"] _ h
  exact ⟨_, h, h1, h2 "clang"⟩

/-- C6: first-match dispatch: -MM is taken by the ignored-option exact
table (priority 3), consuming nothing and leaving the whole result record,
including action, unchanged, even though the preprocessor pattern (priority
9) would also match it; -E reaches the preprocessor rule and sets the action
to PREPROCESS. -/
theorem C6_first_match_dispatch (fs : FileSystem) (rest : List String)
    (r : OptionParserResult) :
    arg_check fs "-MM" rest r = .ok (r, 0) ∧
    arg_check fs "-E" rest r = .ok ({ r with action := ActionType.PREPROCESS }, 0) := by
  constructor
  · simp [arg_check, arg_collection, dispatch, rule_replace, rule_unknown, rule_ignored,
    rule_ignored_regex, rule_lang, rule_output, rule_arch, rule_action_compile,
    rule_action_preproc, rule_action_info, rule_compile_exact, rule_compiler_linker,
    rule_linker_regex, rule_compile_regex, rule_compile_merged, rule_link_merged,
    rule_linker_exact, rule_filelist, rule_files, lookupS, streq, leq, lcp, sw, dollar_end, dstar_ok, dstar_group, dollar_eq,
      dollar_sw, class_star_dollar,
    unknown_options_match, ignored_options_regex_match, preproc_match,
    compile_options_regex_match, linker_options_regex_match, mergedMatch,
    files_fallback_match, hasChar, COMPILE_OPTION_MAP, REPLACE_OPTIONS_MAP,
    IGNORED_OPTION_MAP, COMPILER_LINKER_OPTION_MAP, LINKER_OPTION_MAP,
    COMPILE_OPTION_MAP_MERGED, LINK_OPTION_MAP_MERGED, PRE_CLASS]
  · simp [arg_check, arg_collection, dispatch, rule_replace, rule_unknown, rule_ignored,
    rule_ignored_regex, rule_lang, rule_output, rule_arch, rule_action_compile,
    rule_action_preproc, rule_action_info, rule_compile_exact, rule_compiler_linker,
    rule_linker_regex, rule_compile_regex, rule_compile_merged, rule_link_merged,
    rule_linker_exact, rule_filelist, rule_files, lookupS, streq, leq, lcp, sw, dollar_end, dstar_ok, dstar_group, dollar_eq,
      dollar_sw, class_star_dollar,
    unknown_options_match, ignored_options_regex_match, preproc_match,
    compile_options_regex_match, linker_options_regex_match, mergedMatch,
    files_fallback_match, hasChar, COMPILE_OPTION_MAP, REPLACE_OPTIONS_MAP,
    IGNORED_OPTION_MAP, COMPILER_LINKER_OPTION_MAP, LINKER_OPTION_MAP,
    COMPILE_OPTION_MAP_MERGED, LINK_OPTION_MAP_MERGED, PRE_CLASS]

/-- C7 counterexample: the claim requires the call to abort when the
-filelist path cannot be opened, but -filelist is captured by the
compile-option regex -f dot-star (priority 14) before the file-list rule
(priority 18): on the failing filesystem the call still returns a result,
with -filelist stored as a compile option and the path as a file. -/
theorem C7_counterexample :
    parse_options fsNone "gcc" ["-filelist", "nofile"] =
      .ok { action := ActionType.LINK, compile_opts := ["-filelist"],
            files := ["nofile"], compiler := some "gcc" } := by
  decide

/-- C7 (amended): the call aborts in exactly one in-engine case, a handler
needing more trailing tokens than remain (the truncation error); the
missing-file-list abort is unreachable because the file-list rule is dead
code, an unmatched token never aborts and leaves the result unchanged, and
a truncated trailing argument does abort. -/
theorem C7_fatal_truncation_only :
    (∀ (fs : FileSystem) (c : String) (args : List String) (e : ParseError),
      parse_options fs c args = .error e → e = ParseError.truncated) ∧
    (∀ (fs : FileSystem) (t : String) (rest : List String) (r : OptionParserResult),
      matches_some_rule t = false → arg_check fs t rest r = .ok (r, 0)) ∧
    parse_options fsNone "gcc" ["--sysroot"] = .error ParseError.truncated := by
  refine ⟨?_, fun fs t rest r h => arg_check_unmatched h, by decide⟩
  intro fs c args e h
  unfold parse_options at h
  cases hloop : parse_loop fs args.length args init_result with
  | error e' =>
    rw [hloop] at h
    simp only [Except.map] at h
    cases h
    exact parse_loop_error _ _ _ _ hloop
  | ok r0 =>
    rw [hloop] at h
    simp [Except.map] at h

/-- C7 witness: the unmatched token -q neither aborts nor changes the
result. -/
theorem C7_fatal_truncation_only_witness :
    matches_some_rule "-q" = false ∧
    arg_check fsNone "-q" ["x.c"] init_result = .ok (init_result, 0) :=
  ⟨by decide, C7_fatal_truncation_only.2.1 fsNone "-q" ["x.c"] init_result (by decide)⟩

/-- C8 counterexample: the compiler name with a newline before g++ contains
the substring plus-plus, but the source regex dot-star plus-plus dot-star
cannot cross the newline, so the inference does not fire and the language
is taken from the source extension instead of being forced to c++. -/
theorem C8_counterexample :
    (∃ s t, s ++ ['+', '+'] ++ t = ("g\ng++" : String).data) ∧
    (parse_options fsNone "g\ng++" ["x.c"]).map (fun r => r.lang) =
      .ok (some "c") := by
  refine ⟨⟨['g', '\n', 'g'], [], rfl⟩, by decide⟩

/-- C8 (amended): the compiler-name inference fires exactly when the
compiler name contains two consecutive plus characters before any newline
(the regex dot cannot cross a newline); the returned language is then
forced to c++, overriding an explicit -x flag and the extension scan. -/
theorem C8_cpp_inference (fs : FileSystem) (c : String) (args : List String)
    (r : OptionParserResult) (h : parse_options fs c args = .ok r)
    (hpp : has_pp c.data = true) : r.lang = some "c++" := by
  unfold parse_options at h
  cases hloop : parse_loop fs args.length args init_result with
  | error e => rw [hloop] at h; simp [Except.map] at h
  | ok r0 =>
    rw [hloop] at h
    simp only [Except.map] at h
    cases h
    exact postpass_lang_pp c r0 hpp

/-- C8 witness: g++ with an explicit -x c still returns lang c++. -/
theorem C8_cpp_inference_witness :
    has_pp ("g++" : String).data = true ∧
    ∃ r, parse_options fsNone "g++" ["-x", "c", "foo.cpp"] = .ok r ∧
      r.lang = some "c++" := by
  have h : parse_options fsNone "g++" ["-x", "c", "foo.cpp"] =
      .ok { action := ActionType.COMPILE, files := ["foo.cpp"], lang := some "c++",
            compiler := some "g++" } := by
    decide
  exact ⟨by decide, _, h,
    C8_cpp_inference fsNone "g++" ["-x", "c", "foo.cpp"] _ h (by decide)⟩

/-- C9: each key of the exact compile-option table with arity n, followed by
n arbitrary tokens, appends those n plus one tokens in encounter order to
compileOpts and consumes exactly the n trailing tokens. -/
theorem C9_exact_compile_arity (fs : FileSystem) (k : String) (n : Nat)
    (rest : List String) (r : OptionParserResult) (hk : (k, n) ∈ COMPILE_OPTION_MAP)
    (hn : n ≤ rest.length) :
    arg_check fs k rest r =
      .ok ({ r with compile_opts := r.compile_opts ++ k :: rest.take n }, n) := by
  fin_cases hk
  · simp [arg_check, arg_collection, dispatch, rule_replace, rule_unknown, rule_ignored,
    rule_ignored_regex, rule_lang, rule_output, rule_arch, rule_action_compile,
    rule_action_preproc, rule_action_info, rule_compile_exact, rule_compiler_linker,
    rule_linker_regex, rule_compile_regex, rule_compile_merged, rule_link_merged,
    rule_linker_exact, rule_filelist, rule_files, lookupS, streq, leq, lcp, sw, dollar_end, dstar_ok, dstar_group, dollar_eq,
      dollar_sw, class_star_dollar,
    unknown_options_match, ignored_options_regex_match, preproc_match,
    compile_options_regex_match, linker_options_regex_match, mergedMatch,
    files_fallback_match, hasChar, COMPILE_OPTION_MAP, REPLACE_OPTIONS_MAP,
    IGNORED_OPTION_MAP, COMPILER_LINKER_OPTION_MAP, LINKER_OPTION_MAP,
    COMPILE_OPTION_MAP_MERGED, LINK_OPTION_MAP_MERGED, PRE_CLASS]
  · cases rest with
    | nil => simp at hn
    | cons a rest2 => simp [arg_check, arg_collection, dispatch, rule_replace, rule_unknown, rule_ignored,
    rule_ignored_regex, rule_lang, rule_output, rule_arch, rule_action_compile,
    rule_action_preproc, rule_action_info, rule_compile_exact, rule_compiler_linker,
    rule_linker_regex, rule_compile_regex, rule_compile_merged, rule_link_merged,
    rule_linker_exact, rule_filelist, rule_files, lookupS, streq, leq, lcp, sw, dollar_end, dstar_ok, dstar_group, dollar_eq,
      dollar_sw, class_star_dollar,
    unknown_options_match, ignored_options_regex_match, preproc_match,
    compile_options_regex_match, linker_options_regex_match, mergedMatch,
    files_fallback_match, hasChar, COMPILE_OPTION_MAP, REPLACE_OPTIONS_MAP,
    IGNORED_OPTION_MAP, COMPILER_LINKER_OPTION_MAP, LINKER_OPTION_MAP,
    COMPILE_OPTION_MAP_MERGED, LINK_OPTION_MAP_MERGED, PRE_CLASS]
  · cases rest with
    | nil => simp at hn
    | cons a rest2 => simp [arg_check, arg_collection, dispatch, rule_replace, rule_unknown, rule_ignored,
    rule_ignored_regex, rule_lang, rule_output, rule_arch, rule_action_compile,
    rule_action_preproc, rule_action_info, rule_compile_exact, rule_compiler_linker,
    rule_linker_regex, rule_compile_regex, rule_compile_merged, rule_link_merged,
    rule_linker_exact, rule_filelist, rule_files, lookupS, streq, leq, lcp, sw, dollar_end, dstar_ok, dstar_group, dollar_eq,
      dollar_sw, class_star_dollar,
    unknown_options_match, ignored_options_regex_match, preproc_match,
    compile_options_regex_match, linker_options_regex_match, mergedMatch,
    files_fallback_match, hasChar, COMPILE_OPTION_MAP, REPLACE_OPTIONS_MAP,
    IGNORED_OPTION_MAP, COMPILER_LINKER_OPTION_MAP, LINKER_OPTION_MAP,
    COMPILE_OPTION_MAP_MERGED, LINK_OPTION_MAP_MERGED, PRE_CLASS]
  · simp [arg_check, arg_collection, dispatch, rule_replace, rule_unknown, rule_ignored,
    rule_ignored_regex, rule_lang, rule_output, rule_arch, rule_action_compile,
    rule_action_preproc, rule_action_info, rule_compile_exact, rule_compiler_linker,
    rule_linker_regex, rule_compile_regex, rule_compile_merged, rule_link_merged,
    rule_linker_exact, rule_filelist, rule_files, lookupS, streq, leq, lcp, sw, dollar_end, dstar_ok, dstar_group, dollar_eq,
      dollar_sw, class_star_dollar,
    unknown_options_match, ignored_options_regex_match, preproc_match,
    compile_options_regex_match, linker_options_regex_match, mergedMatch,
    files_fallback_match, hasChar, COMPILE_OPTION_MAP, REPLACE_OPTIONS_MAP,
    IGNORED_OPTION_MAP, COMPILER_LINKER_OPTION_MAP, LINKER_OPTION_MAP,
    COMPILE_OPTION_MAP_MERGED, LINK_OPTION_MAP_MERGED, PRE_CLASS]
  · cases rest with
    | nil => simp at hn
    | cons a rest2 => simp [arg_check, arg_collection, dispatch, rule_replace, rule_unknown, rule_ignored,
    rule_ignored_regex, rule_lang, rule_output, rule_arch, rule_action_compile,
    rule_action_preproc, rule_action_info, rule_compile_exact, rule_compiler_linker,
    rule_linker_regex, rule_compile_regex, rule_compile_merged, rule_link_merged,
    rule_linker_exact, rule_filelist, rule_files, lookupS, streq, leq, lcp, sw, dollar_end, dstar_ok, dstar_group, dollar_eq,
      dollar_sw, class_star_dollar,
    unknown_options_match, ignored_options_regex_match, preproc_match,
    compile_options_regex_match, linker_options_regex_match, mergedMatch,
    files_fallback_match, hasChar, COMPILE_OPTION_MAP, REPLACE_OPTIONS_MAP,
    IGNORED_OPTION_MAP, COMPILER_LINKER_OPTION_MAP, LINKER_OPTION_MAP,
    COMPILE_OPTION_MAP_MERGED, LINK_OPTION_MAP_MERGED, PRE_CLASS]

/-- C9 witness at the key --sysroot with its one argument. -/
theorem C9_exact_compile_arity_witness :
    ("--sysroot", 1) ∈ COMPILE_OPTION_MAP ∧ 1 ≤ (["/sr", "x.c"] : List String).length ∧
    arg_check fsNone "--sysroot" ["/sr", "x.c"] init_result =
      .ok ({ init_result with
              compile_opts := init_result.compile_opts ++
                "--sysroot" :: (["/sr", "x.c"] : List String).take 1 }, 1) :=
  ⟨by decide, by decide,
    C9_exact_compile_arity fsNone "--sysroot" 1 ["/sr", "x.c"] init_result
      (by decide) (by decide)⟩

/-- C10 counterexample: inserting -framework Cocoa changes the result: the
token is captured by the compile-option regex -f dot-star, appended to
compileOpts, its would-be argument Cocoa becomes an input file, so the
result is not unchanged as the claim requires. -/
theorem C10_counterexample :
    parse_options fsNone "gcc" ["-framework", "Cocoa", "x.c"] ≠
      parse_options fsNone "gcc" ["x.c"] ∧
    (parse_options fsNone "gcc" ["-framework", "Cocoa", "x.c"]).map
        (fun r => (r.compile_opts, r.files)) =
      .ok (["-framework"], ["Cocoa", "x.c"]) := by
  refine ⟨by decide, by decide⟩

/-- C10 (amended): a key of the exact linker-option table never reaches the
skip rule that names it: both keys start with -f and are captured first by
the compile-option regex (priority 14), so the token is appended to
compileOpts and none of its declared trailing arguments is consumed. -/
theorem C10_linker_exact_shadowed (fs : FileSystem) (t : String) (n : Nat)
    (rest : List String) (r : OptionParserResult) (ht : (t, n) ∈ LINKER_OPTION_MAP) :
    arg_check fs t rest r = .ok ({ r with compile_opts := r.compile_opts ++ [t] }, 0) := by
  fin_cases ht
  · simp [arg_check, arg_collection, dispatch, rule_replace, rule_unknown, rule_ignored,
    rule_ignored_regex, rule_lang, rule_output, rule_arch, rule_action_compile,
    rule_action_preproc, rule_action_info, rule_compile_exact, rule_compiler_linker,
    rule_linker_regex, rule_compile_regex, rule_compile_merged, rule_link_merged,
    rule_linker_exact, rule_filelist, rule_files, lookupS, streq, leq, lcp, sw, dollar_end, dstar_ok, dstar_group, dollar_eq,
      dollar_sw, class_star_dollar,
    unknown_options_match, ignored_options_regex_match, preproc_match,
    compile_options_regex_match, linker_options_regex_match, mergedMatch,
    files_fallback_match, hasChar, COMPILE_OPTION_MAP, REPLACE_OPTIONS_MAP,
    IGNORED_OPTION_MAP, COMPILER_LINKER_OPTION_MAP, LINKER_OPTION_MAP,
    COMPILE_OPTION_MAP_MERGED, LINK_OPTION_MAP_MERGED, PRE_CLASS]
  · simp [arg_check, arg_collection, dispatch, rule_replace, rule_unknown, rule_ignored,
    rule_ignored_regex, rule_lang, rule_output, rule_arch, rule_action_compile,
    rule_action_preproc, rule_action_info, rule_compile_exact, rule_compiler_linker,
    rule_linker_regex, rule_compile_regex, rule_compile_merged, rule_link_merged,
    rule_linker_exact, rule_filelist, rule_files, lookupS, streq, leq, lcp, sw, dollar_end, dstar_ok, dstar_group, dollar_eq,
      dollar_sw, class_star_dollar,
    unknown_options_match, ignored_options_regex_match, preproc_match,
    compile_options_regex_match, linker_options_regex_match, mergedMatch,
    files_fallback_match, hasChar, COMPILE_OPTION_MAP, REPLACE_OPTIONS_MAP,
    IGNORED_OPTION_MAP, COMPILER_LINKER_OPTION_MAP, LINKER_OPTION_MAP,
    COMPILE_OPTION_MAP_MERGED, LINK_OPTION_MAP_MERGED, PRE_CLASS]

/-- C10 witness at -framework. -/
theorem C10_linker_exact_shadowed_witness :
    ("-framework", 1) ∈ LINKER_OPTION_MAP ∧
    arg_check fsNone "-framework" ["Cocoa"] init_result =
      .ok ({ init_result with compile_opts := ["-framework"] }, 0) :=
  ⟨by decide,
    C10_linker_exact_shadowed fsNone "-framework" 1 ["Cocoa"] init_result (by decide)⟩
